import Mathlib

/-!
Verification of the SOS incident-case-management backend (NestJS/Prisma).

This file contains a shallow embedding of the repository's data model and
operations: Prisma records become Lean structures, the persistent store
becomes an explicit `Store` value threaded through each service method,
thrown HTTP exceptions become `Except AppError`, and external collaborators
(bcrypt, JWT signing, the voice-anonymization network service, the NLP
tokenizer/stemmer of the `natural` library) become function parameters.
An `Except.error` result models a request aborted before any database
write, matching the code paths where the exception is thrown before any
`prisma.*.create/update/delete` call.
-/

namespace SOSBackend

/-- User lifecycle status (Prisma enum `UserStatus`). -/
inductive UserStatus where
  | PENDING
  | APPROVED
  | REJECTED
deriving Repr, DecidableEq

/-- A role record: named set of permission strings (`Role` model). -/
structure RoleRec where
  id : String
  name : String
  description : Option String
  permissions : List String
deriving Repr, DecidableEq

/-- A village record (`Village` model). -/
structure VillageRec where
  id : String
  name : String
deriving Repr, DecidableEq

/-- A user record (`User` model): stored password hash, role FK, status. -/
structure UserRec where
  id : String
  email : String
  password : String
  firstName : String
  lastName : String
  roleId : String
  villageName : Option String
  villageId : Option String
  status : UserStatus
  createdAt : Nat
deriving Repr, DecidableEq

/-- An attachment entry on a report (embedded `{url, type, filename}`). -/
structure Attachment where
  url : String
  type : String
  filename : String
deriving Repr, DecidableEq

/-- A report record (`Report` model), the central workflow entity. -/
structure ReportRec where
  id : String
  incidentType : String
  urgency : String
  isAnonymous : Bool
  villageId : String
  villageName : Option String
  childName : String
  abuserName : Option String
  description : String
  notes : Option String
  attachments : List Attachment
  status : String
  reporterId : String
  analystId : Option String
  isArchived : Bool
  closureDecision : Option String
  closedAt : Option Nat
  createdAt : Nat
deriving Repr, DecidableEq

/-- A procedure document attached to a report (`Document` model). -/
structure DocumentRec where
  id : String
  type : String
  fileUrl : String
  uploadedBy : String
  reportId : String
  createdAt : Nat
deriving Repr, DecidableEq

/-- An audit-log entry (`AuditLog` model). -/
structure AuditLogRec where
  action : String
  details : String
  userId : String
  reportId : Option String
  timestamp : Nat
deriving Repr, DecidableEq

/-- A persisted notification (`Notification` model). -/
structure NotificationRec where
  userId : String
  type : String
  title : String
  message : String
  reportId : Option String
  isRead : Bool
deriving Repr, DecidableEq

/-- The persistent store: all Prisma collections. -/
structure Store where
  users : List UserRec
  roles : List RoleRec
  villages : List VillageRec
  reports : List ReportRec
  documents : List DocumentRec
  auditLogs : List AuditLogRec
  notifications : List NotificationRec
deriving Repr, DecidableEq

/-- Models `prisma.user.findUnique` by id. -/
def findUser (s : Store) (id : String) : Option UserRec :=
  s.users.find? (fun u => u.id == id)

/-- Models `prisma.user.findUnique` by unique email. -/
def findUserByEmail (s : Store) (email : String) : Option UserRec :=
  s.users.find? (fun u => u.email == email)

/-- Models `prisma.role.findUnique` by id. -/
def findRole (s : Store) (id : String) : Option RoleRec :=
  s.roles.find? (fun r => r.id == id)

/-- Models `prisma.report.findUnique` by id. -/
def findReport (s : Store) (id : String) : Option ReportRec :=
  s.reports.find? (fun r => r.id == id)

/-- Models `prisma.village.findUnique` by id. -/
def findVillage (s : Store) (id : String) : Option VillageRec :=
  s.villages.find? (fun v => v.id == id)

/-- Documents belonging to a report (`where: {reportId}`). -/
def documentsOf (s : Store) (reportId : String) : List DocumentRec :=
  s.documents.filter (fun d => d.reportId == reportId)

/-- Models `prisma.report.update` by id: rewrite the matching record. -/
def updateReportIn (s : Store) (id : String) (f : ReportRec → ReportRec) : Store :=
  { s with reports := s.reports.map (fun r => if r.id == id then f r else r) }

/-- Error taxonomy: the NestJS exception classes thrown by the services.
`internalError` models the runtime crash that would occur on a dangling
required foreign key (e.g. `user.role` null despite the schema); it is
unreachable in any store satisfying the FK invariant. -/
inductive AppError where
  | notFound (msg : String)
  | badRequest (msg : String)
  | forbidden (msg : String)
  | unauthorized (msg : String)
  | internalError
deriving Repr, DecidableEq

/-- Insert into a list ordered by strictly descending key (stable). -/
def insertDescBy (key : α → Nat) (a : α) : List α → List α
  | [] => [a]
  | b :: t => if key b < key a then a :: b :: t else b :: insertDescBy key a t

/-- Insertion sort by descending key; models Prisma `orderBy: desc`. -/
def sortByDesc (key : α → Nat) : List α → List α
  | [] => []
  | a :: t => insertDescBy key a (sortByDesc key t)

/- ## Authorization gate (src/auth/guards/permissions.guard.ts) -/

/-- JWT claims as seen on the request (`JwtPayload`); the `permissions` claim
may be absent from a malformed token, mirroring `!user.permissions`. -/
structure RequestUser where
  sub : String
  email : String
  role : String
  permissions : Option (List String)
deriving Repr, DecidableEq

/-- Models `PermissionsGuard.canActivate`: `requiredPermissions` is the metadata of
the `@Permissions()` decorator (`none` when no decorator is declared), `user`
is the request user set by the JWT guard (`none` when absent). -/
def canActivate (requiredPermissions : Option (List String))
    (user : Option RequestUser) : Except AppError Bool :=
  match requiredPermissions with
  | none => .ok true
  | some reqs =>
    if reqs.isEmpty then .ok true
    else
      match user with
      | none => .error (.forbidden "No permissions found")
      | some u =>
        match u.permissions with
        | none => .error (.forbidden "No permissions found")
        | some perms =>
          if reqs.all (fun p => perms.contains p) then .ok true
          else
            .error (.forbidden
              ("Missing required permissions: " ++ String.intercalate ", " reqs))

/- ## Credential issuer (src/auth/auth.service.ts) -/

structure SignInDto where
  email : String
  password : String
deriving Repr, DecidableEq

structure SignUpDto where
  email : String
  password : String
  firstName : String
  lastName : String
  roleId : String
  villageName : Option String
deriving Repr, DecidableEq

/-- The claims embedded in the signed token (flattened permissions). -/
structure JwtPayloadData where
  sub : String
  email : String
  role : String
  permissions : List String
deriving Repr, DecidableEq

/-- A user record with the `password` field removed, as produced by the
destructuring that drops `password` and keeps the rest. -/
structure UserNoPassword where
  id : String
  email : String
  firstName : String
  lastName : String
  roleId : String
  villageName : Option String
  villageId : Option String
  status : UserStatus
  createdAt : Nat
deriving Repr, DecidableEq

def stripPassword (u : UserRec) : UserNoPassword :=
  { id := u.id, email := u.email, firstName := u.firstName, lastName := u.lastName,
    roleId := u.roleId, villageName := u.villageName, villageId := u.villageId,
    status := u.status, createdAt := u.createdAt }

/-- Redacted user plus the joined role from the prisma role include. -/
structure UserWithRole where
  user : UserNoPassword
  role : Option RoleRec
deriving Repr, DecidableEq

structure SignUpResponse where
  message : String
  user : UserWithRole
deriving Repr, DecidableEq

structure SignInUserView where
  id : String
  email : String
  firstName : String
  lastName : String
  role : String
  permissions : List String
deriving Repr, DecidableEq

structure SignInResponse where
  accessToken : String
  user : SignInUserView
deriving Repr, DecidableEq

def pendingApprovalMsg : String :=
  "Your account is pending approval. Please wait for an administrator to approve your registration."

def registrationRejectedMsg : String :=
  "Your registration was rejected. Contact an administrator for more information."

/-- Models `AuthService.signUp`: email uniqueness, roleId existence, hash, create
PENDING user, return the redacted view. `bcryptHash` is the external bcrypt
collaborator; `newId`/`now` stand for the generated id and clock. -/
def AuthService.signUp (s : Store) (dto : SignUpDto) (bcryptHash : String → String)
    (newId : String) (now : Nat) : Except AppError (Store × SignUpResponse) :=
  match findUserByEmail s dto.email with
  | some _ => .error (.badRequest "User with this email already exists")
  | none =>
    match findRole s dto.roleId with
    | none =>
      .error (.notFound
        ("Role with ID " ++ dto.roleId ++ " not found. Please use a valid roleId."))
    | some role =>
      let user : UserRec :=
        { id := newId, email := dto.email, password := bcryptHash dto.password,
          firstName := dto.firstName, lastName := dto.lastName, roleId := dto.roleId,
          villageName := dto.villageName, villageId := none, status := .PENDING,
          createdAt := now }
      .ok ({ s with users := s.users ++ [user] },
        { message := "Registration submitted. You will be able to sign in once an administrator approves your account.",
          user := { user := stripPassword user, role := some role } })

/-- Models `AuthService.signIn`: lookup by email, status gate, bcrypt compare, then
sign the flattened-permission payload. `bcryptCompare`/`jwtSign` are the
external collaborators. -/
def AuthService.signIn (s : Store) (dto : SignInDto)
    (bcryptCompare : String → String → Bool)
    (jwtSign : JwtPayloadData → String) : Except AppError SignInResponse :=
  match findUserByEmail s dto.email with
  | none => .error (.unauthorized "Invalid credentials")
  | some user =>
    if user.status = .PENDING then
      .error (.unauthorized pendingApprovalMsg)
    else if user.status = .REJECTED then
      .error (.unauthorized registrationRejectedMsg)
    else if bcryptCompare dto.password user.password = false then
      .error (.unauthorized "Invalid credentials")
    else
      match findRole s user.roleId with
      | none => .error .internalError
      | some role =>
        .ok { accessToken := jwtSign
                { sub := user.id, email := user.email, role := role.name,
                  permissions := role.permissions },
              user := { id := user.id, email := user.email, firstName := user.firstName,
                        lastName := user.lastName, role := role.name,
                        permissions := role.permissions } }

/-- Models `AuthService.validateUser`: fetch by id with role, strip the password. -/
def AuthService.validateUser (s : Store) (userId : String) :
    Except AppError UserWithRole :=
  match findUser s userId with
  | none => .error (.unauthorized "User not found")
  | some user => .ok { user := stripPassword user, role := findRole s user.roleId }

/- ## User administration (src/user/user.service.ts) -/

structure VillageView where
  id : String
  name : String
deriving Repr, DecidableEq

/-- Models the prisma village include (select id and name) on the
nullable village FK. -/
def villageViewOf (s : Store) (u : UserRec) : Option VillageView :=
  match u.villageId with
  | none => none
  | some vid => (findVillage s vid).map (fun v => { id := v.id, name := v.name })

structure UserListItem where
  user : UserNoPassword
  role : Option RoleRec
  village : Option VillageView
deriving Repr, DecidableEq

/-- Models `UserService.findAll`: optional status filter, newest first, passwords
stripped from every returned user. -/
def UserService.findAll (s : Store) (statusFilter : Option UserStatus) :
    List UserListItem :=
  let matchesStatus := fun (u : UserRec) =>
    match statusFilter with
    | none => true
    | some st => u.status == st
  (sortByDesc (fun u => u.createdAt) (s.users.filter matchesStatus)).map
    (fun u => { user := stripPassword u, role := findRole s u.roleId,
                village := villageViewOf s u })

/-- Models `UserService.findOne`: fetch by id, strip the password. -/
def UserService.findOne (s : Store) (id : String) : Except AppError UserListItem :=
  match findUser s id with
  | none => .error (.notFound ("User with ID " ++ id ++ " not found"))
  | some user =>
    .ok { user := stripPassword user, role := findRole s user.roleId,
          village := villageViewOf s user }

/- ## Role administration (src/role/role.service.ts) -/

structure MessageResponse where
  message : String
deriving Repr, DecidableEq

/-- Users referencing a role; its length is the prisma user count of the role. -/
def usersWithRole (s : Store) (roleId : String) : List UserRec :=
  s.users.filter (fun u => u.roleId == roleId)

/-- Models `RoleService.remove`: refuse deletion while any user references the role. -/
def RoleService.remove (s : Store) (id : String) :
    Except AppError (Store × MessageResponse) :=
  match findRole s id with
  | none => .error (.notFound ("Role with ID " ++ id ++ " not found"))
  | some role =>
    let count := (usersWithRole s id).length
    if count > 0 then
      .error (.badRequest
        ("Cannot delete role \"" ++ role.name ++ "\". " ++ toString count ++
          " user(s) are assigned to this role."))
    else
      .ok ({ s with roles := s.roles.filter (fun r => !(r.id == id)) },
        { message := "Role deleted successfully" })

/-- Rewrites every stored password hash, leaving all other data unchanged;
used to state that user-facing responses never depend on (hence never leak)
the stored password hashes. -/
def mapPasswords (s : Store) (f : UserRec → String) : Store :=
  { s with users := s.users.map (fun u => { u with password := f u }) }

/- ## Upload policy (src/common/config/multer.config.ts) and
voice anonymizer boundary (src/voice-anonymizer) -/

def imageMimes : List String :=
  ["image/jpeg", "image/jpg", "image/png", "image/gif", "image/webp"]

def audioMimes : List String :=
  ["audio/mpeg", "audio/mp3", "audio/wav", "audio/ogg", "audio/webm"]

def documentMimes : List String :=
  ["application/pdf", "application/msword",
   "application/vnd.openxmlformats-officedocument.wordprocessingml.document"]

def getFileType (mimetype : String) : String :=
  if imageMimes.contains mimetype then "image"
  else if audioMimes.contains mimetype then "audio"
  else if documentMimes.contains mimetype then "document"
  else "other"

/-- An uploaded file as seen by the services (relevant Multer fields). -/
structure MulterFile where
  filename : String
  originalname : String
  mimetype : String
deriving Repr, DecidableEq

/-- Models `VoiceAnonymizerService.isAudioFile` (its AUDIO_MIMES list equals
the multer audio list). -/
def isAudioFile (mimetype : String) : Bool :=
  audioMimes.contains mimetype

/-- Attachment entry built from an uploaded file in create/update. -/
def mkAttachment (file : MulterFile) : Attachment :=
  { url := "/uploads/" ++ file.filename, type := getFileType file.mimetype,
    filename := file.originalname }

/-- The per-file loop of `ReportService.create`/`update` for anonymous
reports: each audio file is routed through the external `anonymizeAudio`
collaborator (modeled as the function argument, `.error` when the
collaborator call throws); the first failing collaborator call aborts the
whole operation with `failMsg`. -/
def processAnonymousFiles (anonymizeAudio : MulterFile → Except Unit MulterFile)
    (failMsg : String) : List MulterFile → Except AppError (List MulterFile)
  | [] => .ok []
  | file :: rest =>
    if isAudioFile file.mimetype then
      match anonymizeAudio file with
      | .ok anonymized =>
        match processAnonymousFiles anonymizeAudio failMsg rest with
        | .ok out => .ok (anonymized :: out)
        | .error e => .error e
      | .error _ => .error (.badRequest failMsg)
    else
      match processAnonymousFiles anonymizeAudio failMsg rest with
      | .ok out => .ok (file :: out)
      | .error e => .error e

/- ## Case lifecycle engine (src/report/report.service.ts) -/

structure CreateReportDto where
  incidentType : String
  urgency : String
  isAnonymous : Option Bool
  villageId : String
  childName : String
  abuserName : Option String
  description : String
deriving Repr, DecidableEq

structure UpdateReportDto where
  incidentType : Option String
  urgency : Option String
  isAnonymous : Option Bool
  villageId : Option String
  childName : Option String
  abuserName : Option String
  description : Option String
  status : Option String
  notes : Option String
deriving Repr, DecidableEq

structure AssignReportDto where
  analystId : String
deriving Repr, DecidableEq

structure ClassifyReportDto where
  classification : String
  reason : String
deriving Repr, DecidableEq

structure CloseReportDto where
  closureDecision : String
  closureNotes : String
deriving Repr, DecidableEq

structure ReportFiltersDto where
  villageName : Option String
  status : Option String
  incidentType : Option String
  urgency : Option String
  isArchived : Option Bool
  dateFrom : Option Nat
  dateTo : Option Nat
  limit : Option Nat
  offset : Option Nat
deriving Repr, DecidableEq

def archivedErrorMsg : String :=
  "Cannot modify archived report. Case is closed and sealed."

def archivedDocMsg : String :=
  "Cannot add documents to archived report. Case is closed and sealed."

def archivedDeleteMsg : String :=
  "Cannot delete archived report. Contact SuperAdmin for data retention policies."

def archivedCloseMsg : String :=
  "Report is already archived and closed."

def closureDocMsg : String :=
  "Cannot close case without \"Avis de cloture\" document. Upload closure document via POST /documents/reports/:id/cloture first."

def createAnonFailMsg : String :=
  "Voice anonymization failed for anonymous report. Ensure the voice anonymizer service is running."

def updateAnonFailMsg : String :=
  "Voice anonymization failed. Ensure the voice anonymizer service is running."

def validAnalystRoles : List String := ["Psychologue", "Assistant Social", "Directeur"]

/-- The abstract ArchivedImmutable error class of the spec taxonomy: exactly
the exceptions thrown at the `report.isArchived` guard of each mutating
operation (the HTTP exception class varies per operation in the code). -/
def AppError.isArchivedImmutable : AppError → Bool
  | .forbidden m => m == archivedErrorMsg || m == archivedDocMsg || m == archivedDeleteMsg
  | .badRequest m => m == archivedCloseMsg
  | _ => false

/-- Models appending an audit-log entry
(`prisma.auditLog.create`). -/
def appendAudit (s : Store) (action details userId : String)
    (reportId : Option String) (now : Nat) : Store :=
  { s with auditLogs := s.auditLogs ++
      [{ action := action, details := details, userId := userId,
         reportId := reportId, timestamp := now }] }

/-- Reporter selection of findOne/findAll:
id, firstName, lastName, email, villageName, role name. -/
structure ReporterView where
  id : String
  firstName : String
  lastName : String
  email : String
  villageName : Option String
  roleName : Option String
deriving Repr, DecidableEq

/-- Analyst selection of findOne/findAll. -/
structure AnalystView where
  id : String
  firstName : String
  lastName : String
  email : String
  roleName : Option String
deriving Repr, DecidableEq

/-- True reporter fields joined from the store. -/
def reporterViewOf (s : Store) (r : ReportRec) : Option ReporterView :=
  (findUser s r.reporterId).map (fun u =>
    { id := u.id, firstName := u.firstName, lastName := u.lastName,
      email := u.email, villageName := u.villageName,
      roleName := (findRole s u.roleId).map (fun ro => ro.name) })

def analystViewOf (s : Store) (r : ReportRec) : Option AnalystView :=
  match r.analystId with
  | none => none
  | some aid =>
    (findUser s aid).map (fun u =>
      { id := u.id, firstName := u.firstName, lastName := u.lastName,
        email := u.email, roleName := (findRole s u.roleId).map (fun ro => ro.name) })

/-- The fixed anonymous-reporter placeholder substituted in read results. -/
def anonymousReporterView (r : ReportRec) : ReporterView :=
  { id := "anonymous", firstName := "Anonymous", lastName := "Reporter",
    email := "anonymous@hidden", villageName := r.villageName,
    roleName := some "Hidden" }

/-- Compact document selection of findAll. -/
structure DocumentView where
  id : String
  type : String
  fileUrl : String
  uploadedBy : String
  createdAt : Nat
deriving Repr, DecidableEq

def documentViewOf (d : DocumentRec) : DocumentView :=
  { id := d.id, type := d.type, fileUrl := d.fileUrl, uploadedBy := d.uploadedBy,
    createdAt := d.createdAt }

/-- Name-and-role selection used in audit-log and assign joins. -/
structure NameRoleView where
  firstName : String
  lastName : String
  roleName : Option String
deriving Repr, DecidableEq

/-- Name-only selection used in assign/classify/close joins. -/
structure NameView where
  firstName : String
  lastName : String
deriving Repr, DecidableEq

def nameViewOf (s : Store) (uid : String) : Option NameView :=
  (findUser s uid).map (fun u => { firstName := u.firstName, lastName := u.lastName })

/-- Optional-analyst join of the classify/close responses. -/
def nameViewOfOption (s : Store) (o : Option String) : Option NameView :=
  match o with
  | some aid => nameViewOf s aid
  | none => none

def nameRoleViewOf (s : Store) (uid : String) : Option NameRoleView :=
  (findUser s uid).map (fun u =>
    { firstName := u.firstName, lastName := u.lastName,
      roleName := (findRole s u.roleId).map (fun ro => ro.name) })

/-- Audit-log entry with the joined acting user, as in findOne. -/
structure AuditLogView where
  action : String
  details : String
  userId : String
  reportId : Option String
  timestamp : Nat
  user : Option NameRoleView
deriving Repr, DecidableEq

def auditLogsOf (s : Store) (reportId : String) : List AuditLogRec :=
  s.auditLogs.filter (fun a => a.reportId == some reportId)

def auditLogViewOf (s : Store) (a : AuditLogRec) : AuditLogView :=
  { action := a.action, details := a.details, userId := a.userId,
    reportId := a.reportId, timestamp := a.timestamp,
    user := nameRoleViewOf s a.userId }

/-- Result shape of `ReportService.findOne`. -/
structure ReportDetail where
  report : ReportRec
  reporter : Option ReporterView
  analyst : Option AnalystView
  documents : List DocumentRec
  auditLogs : List AuditLogView
deriving Repr, DecidableEq

/-- Models `ReportService.findOne`: fetch with joins, ownership gate for the
reporter-tier role, then anonymous-reporter substitution unless the caller is
privileged or the original reporter. -/
def ReportService.findOne (s : Store) (id userId userRole : String) :
    Except AppError ReportDetail :=
  match findReport s id with
  | none => .error (.notFound ("Report with ID " ++ id ++ " not found"))
  | some report =>
    if userRole == "Mère SOS" && report.reporterId != userId then
      .error (.forbidden "You can only view your own reports")
    else
      let canSeeIdentity :=
        ["SuperAdmin", "Directeur"].contains userRole || report.reporterId == userId
      let base : ReportDetail :=
        { report := report, reporter := reporterViewOf s report,
          analyst := analystViewOf s report,
          documents := sortByDesc (fun d => d.createdAt) (documentsOf s id),
          auditLogs := (sortByDesc (fun a => a.timestamp) (auditLogsOf s id)).map
            (auditLogViewOf s) }
      if report.isAnonymous && !canSeeIdentity then
        .ok { base with reporter := some (anonymousReporterView report) }
      else
        .ok base

/-- One row of the findAll result. -/
structure ReportListItem where
  report : ReportRec
  reporter : Option ReporterView
  analyst : Option AnalystView
  documents : List DocumentView
deriving Repr, DecidableEq

structure FindAllResult where
  data : List ReportListItem
  total : Nat
  limit : Nat
  offset : Nat
deriving Repr, DecidableEq

/-- The findAll where-clause: reporter-tier sees only own reports, plus the
optional filters. -/
def matchesReportFilters (userId userRole : String) (filters : ReportFiltersDto)
    (r : ReportRec) : Bool :=
  (if userRole == "Mère SOS" then r.reporterId == userId else true)
  && (match filters.villageName with
      | some v => r.villageName == some v
      | none => true)
  && (match filters.status with | some v => r.status == v | none => true)
  && (match filters.incidentType with | some v => r.incidentType == v | none => true)
  && (match filters.urgency with | some v => r.urgency == v | none => true)
  && (match filters.isArchived with | some b => r.isArchived == b | none => true)
  && (match filters.dateFrom with | some d => decide (d ≤ r.createdAt) | none => true)
  && (match filters.dateTo with | some d => decide (r.createdAt ≤ d) | none => true)

def buildListItem (s : Store) (r : ReportRec) : ReportListItem :=
  { report := r, reporter := reporterViewOf s r, analyst := analystViewOf s r,
    documents := (documentsOf s r.id).map documentViewOf }

/-- Models `ReportService.findAll`: filter, newest first, paging with the
JS-falsy defaulting of limit/offset, then anonymous-reporter substitution
for callers that are neither oversight-tier nor the report's reporter. -/
def ReportService.findAll (s : Store) (userId userRole : String)
    (filters : ReportFiltersDto) : FindAllResult :=
  let matched := s.reports.filter (matchesReportFilters userId userRole filters)
  let limit := min (match filters.limit with
    | none => 50
    | some n => if n == 0 then 50 else n) 100
  let offset := match filters.offset with | none => 0 | some n => n
  let selected := ((sortByDesc (fun r => r.createdAt) matched).drop offset).take limit
  let canSeeIdentity := ["SuperAdmin", "Directeur"].contains userRole
  let data := (selected.map (buildListItem s)).map (fun item =>
    if item.report.isAnonymous && !canSeeIdentity
        && item.report.reporterId != userId then
      { item with reporter := some (anonymousReporterView item.report) }
    else item)
  { data := data, total := matched.length, limit := limit, offset := offset }

/-- Reporter join of create (full role object included). -/
structure CreateReporterView where
  id : String
  firstName : String
  lastName : String
  email : String
  role : Option RoleRec
deriving Repr, DecidableEq

/-- Response of create: the new report, its joined reporter and the
anonymity note added onto the reporter object for anonymous submissions. -/
structure CreateResponse where
  message : String
  report : ReportRec
  reporter : Option CreateReporterView
  reporterNote : Option String
deriving Repr, DecidableEq

/-- Models `ReportService.create`: reporter lookup, voice anonymization of
audio attachments for anonymous submissions (fail-closed), report creation at
status ATTENTE, audit log, and urgent-report fan-out to Directeur/SuperAdmin.
`newId`/`now` stand for the generated id and clock; the report row stores the
dto fields, so `villageName` starts unset. -/
def ReportService.create (s : Store) (dto : CreateReportDto) (reporterId : String)
    (files : List MulterFile) (anonymizeAudio : MulterFile → Except Unit MulterFile)
    (newId : String) (now : Nat) : Except AppError (Store × CreateResponse) :=
  match findUser s reporterId with
  | none => .error (.notFound "Reporter not found")
  | some reporter =>
    match (if dto.isAnonymous.getD false && !files.isEmpty then
             processAnonymousFiles anonymizeAudio createAnonFailMsg files
           else .ok files) with
    | .error e => .error e
    | .ok processedFiles =>
      let attachments := processedFiles.map mkAttachment
      let report : ReportRec :=
        { id := newId, incidentType := dto.incidentType, urgency := dto.urgency,
          isAnonymous := dto.isAnonymous.getD false, villageId := dto.villageId,
          villageName := none, childName := dto.childName,
          abuserName := dto.abuserName, description := dto.description,
          notes := none, attachments := attachments, status := "ATTENTE",
          reporterId := reporterId, analystId := none, isArchived := false,
          closureDecision := none, closedAt := none, createdAt := now }
      let s1 := { s with reports := s.reports ++ [report] }
      let s2 := appendAudit s1 "REPORT_CREATED"
        ("Report created: " ++ report.incidentType ++ " at " ++
          (report.villageName.getD "undefined"))
        reporterId (some newId) now
      let s3 :=
        if report.urgency == "CRITIQUE" || report.urgency == "HAUTE" then
          let directeurIds := (s.users.filter (fun u =>
            match findRole s u.roleId with
            | some ro => ro.name == "Directeur" || ro.name == "SuperAdmin"
            | none => false)).map (fun u => u.id)
          { s2 with notifications := s2.notifications ++ directeurIds.map (fun uid =>
              { userId := uid, type := "URGENT_REPORT",
                title := "Signalement URGENT: " ++ report.urgency,
                message := "Nouveau signalement urgent de type \"" ++
                  report.incidentType ++ "\". Action immédiate requise.",
                reportId := some newId, isRead := false }) }
        else s2
      .ok (s3,
        { message := "Report created successfully", report := report,
          reporter := some { id := reporter.id, firstName := reporter.firstName,
                             lastName := reporter.lastName, email := reporter.email,
                             role := findRole s reporter.roleId },
          reporterNote :=
            if dto.isAnonymous.getD false then
              some "Report created as anonymous - identity hidden from others"
            else none })

/-- Field-wise application of the update dto (absent fields unchanged), with
the merged attachment list. -/
def applyUpdateDto (dto : UpdateReportDto) (attachments : List Attachment)
    (r : ReportRec) : ReportRec :=
  { r with
    incidentType := dto.incidentType.getD r.incidentType,
    urgency := dto.urgency.getD r.urgency,
    isAnonymous := dto.isAnonymous.getD r.isAnonymous,
    villageId := dto.villageId.getD r.villageId,
    childName := dto.childName.getD r.childName,
    abuserName := (match dto.abuserName with | some v => some v | none => r.abuserName),
    description := dto.description.getD r.description,
    status := dto.status.getD r.status,
    notes := (match dto.notes with | some v => some v | none => r.notes),
    attachments := attachments }

/-- User selection of the update response joins: id, names, role name. -/
structure UserSmallView where
  id : String
  firstName : String
  lastName : String
  roleName : Option String
deriving Repr, DecidableEq

def userSmallViewOf (s : Store) (uid : String) : Option UserSmallView :=
  (findUser s uid).map (fun u =>
    { id := u.id, firstName := u.firstName, lastName := u.lastName,
      roleName := (findRole s u.roleId).map (fun ro => ro.name) })

structure UpdatedReportView where
  report : ReportRec
  reporter : Option UserSmallView
  analyst : Option UserSmallView
deriving Repr, DecidableEq

structure UpdateResponse where
  message : String
  report : UpdatedReportView
deriving Repr, DecidableEq

/-- The anonymous placeholder of the update response (small selection). -/
def anonymousSmallView : UserSmallView :=
  { id := "anonymous", firstName := "Anonymous", lastName := "Reporter",
    roleName := some "Hidden" }

/-- The response payload of update: joined small views, with the
anonymous-reporter substitution unless the caller is oversight-tier or the
reporter. -/
def updateResponseView (s : Store) (userId userRole : String)
    (updatedReport : ReportRec) : UpdatedReportView :=
  let canSeeIdentity :=
    ["SuperAdmin", "Directeur"].contains userRole
      || updatedReport.reporterId == userId
  let view : UpdatedReportView :=
    { report := updatedReport,
      reporter := userSmallViewOf s updatedReport.reporterId,
      analyst := (match updatedReport.analystId with
        | some aid => userSmallViewOf s aid
        | none => none) }
  if updatedReport.isAnonymous && !canSeeIdentity then
    { view with reporter := some anonymousSmallView }
  else view

/-- Models `ReportService.update`: archived guard first, then the
reporter-tier ownership guard, anonymization of newly attached audio for
anonymous reports, append-only attachment merge, field update, audit log, and
anonymous-reporter substitution in the response payload. -/
def ReportService.update (s : Store) (id : String) (dto : UpdateReportDto)
    (userId userRole : String) (files : List MulterFile)
    (anonymizeAudio : MulterFile → Except Unit MulterFile) (now : Nat) :
    Except AppError (Store × UpdateResponse) :=
  match findReport s id with
  | none => .error (.notFound ("Report with ID " ++ id ++ " not found"))
  | some report =>
    if report.isArchived then .error (.forbidden archivedErrorMsg)
    else if userRole == "Mère SOS" && report.reporterId != userId then
      .error (.forbidden "You can only update your own reports")
    else
      match (if report.isAnonymous && !files.isEmpty then
               processAnonymousFiles anonymizeAudio updateAnonFailMsg files
             else .ok files) with
      | .error e => .error e
      | .ok processedFiles =>
        let newAttachments := processedFiles.map mkAttachment
        let attachments := report.attachments ++ newAttachments
        let updatedReport := applyUpdateDto dto attachments report
        let s1 := updateReportIn s id (applyUpdateDto dto attachments)
        let s2 := appendAudit s1 "REPORT_UPDATED" ("Report updated by " ++ userRole)
          userId (some id) now
        .ok (s2, { message := "Report updated successfully",
                   report := updateResponseView s userId userRole updatedReport })

structure AssignResponse where
  message : String
  report : ReportRec
  reporter : Option NameView
  analyst : Option NameRoleView
deriving Repr, DecidableEq

/-- Models `ReportService.assign`: archived guard, analyst existence, analyst
role allow-list, then set analystId and status EN_COURS, audit log and
notification to the assignee. -/
def ReportService.assign (s : Store) (id : String) (dto : AssignReportDto)
    (userId : String) (now : Nat) : Except AppError (Store × AssignResponse) :=
  match findReport s id with
  | none => .error (.notFound ("Report with ID " ++ id ++ " not found"))
  | some report =>
    if report.isArchived then .error (.forbidden archivedErrorMsg)
    else
      match findUser s dto.analystId with
      | none => .error (.notFound "Analyst not found")
      | some analyst =>
        match findRole s analyst.roleId with
        | none => .error .internalError
        | some analystRole =>
          if !(validAnalystRoles.contains analystRole.name) then
            .error (.badRequest
              ("User must have one of these roles: " ++
                String.intercalate ", " validAnalystRoles))
          else
            let updatedReport : ReportRec :=
              { report with analystId := some dto.analystId, status := "EN_COURS" }
            let s1 := updateReportIn s id (fun r =>
              { r with analystId := some dto.analystId, status := "EN_COURS" })
            let s2 := appendAudit s1 "REPORT_ASSIGNED"
              ("Report assigned to " ++ analyst.firstName ++ " " ++
                analyst.lastName ++ " (" ++ analystRole.name ++ ")")
              userId (some id) now
            let s3 := { s2 with notifications := s2.notifications ++
              [{ userId := dto.analystId, type := "REPORT_ASSIGNED",
                 title := "Nouveau signalement assigné",
                 message := "Un signalement de type \"" ++
                   updatedReport.incidentType ++ "\" à " ++
                   (updatedReport.villageName.getD "undefined") ++
                   " vous a été assigné.",
                 reportId := some id, isRead := false }] }
            .ok (s3,
              { message := "Report assigned successfully", report := updatedReport,
                reporter := nameViewOf s report.reporterId,
                analyst := nameRoleViewOf s dto.analystId })

structure ClassifyResponse where
  message : String
  report : ReportRec
  reporter : Option NameView
  analyst : Option NameView
deriving Repr, DecidableEq

/-- Models `ReportService.classify`: archived guard, then set the status to
the classification value and closedAt (soft close, no archival). -/
def ReportService.classify (s : Store) (id : String) (dto : ClassifyReportDto)
    (userId : String) (now : Nat) : Except AppError (Store × ClassifyResponse) :=
  match findReport s id with
  | none => .error (.notFound ("Report with ID " ++ id ++ " not found"))
  | some report =>
    if report.isArchived then .error (.forbidden archivedErrorMsg)
    else
      let updatedReport : ReportRec :=
        { report with status := dto.classification, closedAt := some now }
      let s1 := updateReportIn s id (fun r =>
        { r with status := dto.classification, closedAt := some now })
      let s2 := appendAudit s1 "REPORT_CLASSIFIED"
        ("Report classified as " ++ dto.classification ++ ": " ++ dto.reason)
        userId (some id) now
      .ok (s2,
        { message := "Report classified successfully", report := updatedReport,
          reporter := nameViewOf s report.reporterId,
          analyst := nameViewOfOption s report.analystId })

structure CloseResponse where
  message : String
  report : ReportRec
  reporter : Option NameView
  analyst : Option NameView
  documents : List DocumentRec
deriving Repr, DecidableEq

/-- Models `ReportService.close`: archived guard, closure-document gate, then
the single update setting status CLOTURE, closedAt, isArchived and the
closure decision, plus the audit log. -/
def ReportService.close (s : Store) (id : String) (dto : CloseReportDto)
    (userId : String) (now : Nat) : Except AppError (Store × CloseResponse) :=
  match findReport s id with
  | none => .error (.notFound ("Report with ID " ++ id ++ " not found"))
  | some report =>
    if report.isArchived then .error (.badRequest archivedCloseMsg)
    else
      let docs := documentsOf s id
      if !(docs.any (fun d => d.type == "CLOTURE")) then
        .error (.badRequest closureDocMsg)
      else
        let updatedReport : ReportRec :=
          { report with
            status := "CLOTURE", closedAt := some now,
            isArchived := true, closureDecision := some dto.closureDecision }
        let s1 := updateReportIn s id (fun r =>
          { r with
            status := "CLOTURE", closedAt := some now,
            isArchived := true, closureDecision := some dto.closureDecision })
        let s2 := appendAudit s1 "REPORT_ARCHIVED"
          ("Case closed and archived. Decision: " ++ dto.closureDecision ++
            ". Notes: " ++ dto.closureNotes)
          userId (some id) now
        .ok (s2,
          { message := "Case closed and archived successfully. Report is now read-only and cannot be modified.",
            report := updatedReport,
            reporter := nameViewOf s report.reporterId,
            analyst := nameViewOfOption s report.analystId,
            documents := documentsOf s id })

/-- Models `ReportService.remove`: archived guard, audit log written before
the destructive delete. -/
def ReportService.remove (s : Store) (id userId : String) (now : Nat) :
    Except AppError (Store × MessageResponse) :=
  match findReport s id with
  | none => .error (.notFound ("Report with ID " ++ id ++ " not found"))
  | some report =>
    if report.isArchived then .error (.forbidden archivedDeleteMsg)
    else
      let s1 := appendAudit s "REPORT_DELETED" ("Report " ++ id ++ " deleted")
        userId (some id) now
      let s2 := { s1 with reports := s1.reports.filter (fun r => !(r.id == id)) }
      .ok (s2, { message := "Report deleted successfully" })

/- ## Documents (src/document/document.service.ts) -/

structure UploadResponse where
  message : String
  document : DocumentRec
deriving Repr, DecidableEq

def findDocument (s : Store) (id : String) : Option DocumentRec :=
  s.documents.find? (fun d => d.id == id)

/-- Models `DocumentService.upload`: report existence, archived guard, then
document creation, audit log, and notification to the assigned analyst. -/
def DocumentService.upload (s : Store) (reportId documentType : String)
    (file : MulterFile) (userId userName : String) (newId : String) (now : Nat) :
    Except AppError (Store × UploadResponse) :=
  match findReport s reportId with
  | none => .error (.notFound ("Report with ID " ++ reportId ++ " not found"))
  | some report =>
    if report.isArchived then .error (.forbidden archivedDocMsg)
    else
      let document : DocumentRec :=
        { id := newId, type := documentType, fileUrl := "/uploads/" ++ file.filename,
          uploadedBy := userName, reportId := reportId, createdAt := now }
      let s1 := { s with documents := s.documents ++ [document] }
      let s2 := appendAudit s1 "DOCUMENT_UPLOADED"
        ("Document uploaded: " ++ documentType) userId (some reportId) now
      let s3 := match report.analystId with
        | some aid =>
          if aid != userId then
            { s2 with notifications := s2.notifications ++
              [{ userId := aid, type := "DOCUMENT_UPLOADED",
                 title := "Nouveau document ajouté",
                 message := userName ++ " a ajouté un document: " ++ documentType,
                 reportId := some reportId, isRead := false }] }
          else s2
        | none => s2
      .ok (s3, { message := "Document uploaded successfully", document := document })

/-- Models `DocumentService.remove`: in-service permission re-check, audit log
before the destructive delete. -/
def DocumentService.remove (s : Store) (id userId : String)
    (userPermissions : List String) (now : Nat) :
    Except AppError (Store × MessageResponse) :=
  match findDocument s id with
  | none => .error (.notFound ("Document with ID " ++ id ++ " not found"))
  | some document =>
    if !(userPermissions.contains "DOC_DELETE") then
      .error (.forbidden "You do not have permission to delete documents")
    else
      let s1 := appendAudit s "DOCUMENT_DELETED"
        ("Document deleted: " ++ document.type) userId (some document.reportId) now
      let s2 := { s1 with documents := s1.documents.filter (fun d => !(d.id == id)) }
      .ok (s2, { message := "Document deleted successfully" })

/-- One successful mutating case-lifecycle operation, relating the store
before to the store after; used to express permanence of archival. -/
inductive Step : Store → Store → Prop where
  | create (s : Store) (dto : CreateReportDto) (reporterId : String)
      (files : List MulterFile) (anonymizeAudio : MulterFile → Except Unit MulterFile)
      (newId : String) (now : Nat) (s' : Store) (resp : CreateResponse) :
      ReportService.create s dto reporterId files anonymizeAudio newId now =
        .ok (s', resp) → Step s s'
  | update (s : Store) (id : String) (dto : UpdateReportDto) (userId userRole : String)
      (files : List MulterFile) (anonymizeAudio : MulterFile → Except Unit MulterFile)
      (now : Nat) (s' : Store) (resp : UpdateResponse) :
      ReportService.update s id dto userId userRole files anonymizeAudio now =
        .ok (s', resp) → Step s s'
  | assign (s : Store) (id : String) (dto : AssignReportDto) (userId : String)
      (now : Nat) (s' : Store) (resp : AssignResponse) :
      ReportService.assign s id dto userId now = .ok (s', resp) → Step s s'
  | classify (s : Store) (id : String) (dto : ClassifyReportDto) (userId : String)
      (now : Nat) (s' : Store) (resp : ClassifyResponse) :
      ReportService.classify s id dto userId now = .ok (s', resp) → Step s s'
  | close (s : Store) (id : String) (dto : CloseReportDto) (userId : String)
      (now : Nat) (s' : Store) (resp : CloseResponse) :
      ReportService.close s id dto userId now = .ok (s', resp) → Step s s'
  | removeReport (s : Store) (id userId : String) (now : Nat) (s' : Store)
      (resp : MessageResponse) :
      ReportService.remove s id userId now = .ok (s', resp) → Step s s'
  | uploadDocument (s : Store) (reportId documentType : String) (file : MulterFile)
      (userId userName newId : String) (now : Nat) (s' : Store) (resp : UploadResponse) :
      DocumentService.upload s reportId documentType file userId userName newId now =
        .ok (s', resp) → Step s s'
  | removeDocument (s : Store) (id userId : String) (userPermissions : List String)
      (now : Nat) (s' : Store) (resp : MessageResponse) :
      DocumentService.remove s id userId userPermissions now = .ok (s', resp) →
      Step s s'

/- ## Keyword triage analyzer (src/report/ai.service.ts) -/

/-- The fixed list of critical stemmed roots. -/
def CRITICAL_ROOTS : List String :=
  ["sang", "frap", "violenc", "abus", "suicid", "arm", "dang", "urg", "peur",
   "mal", "mort", "battu"]

structure UrgencyAnalysisResult where
  isCritical : Bool
  matchedWords : List String
deriving Repr, DecidableEq

/-- JS ASCII whitespace test backing the trim model. -/
def isWhitespaceChar (c : Char) : Bool :=
  c == ' ' || c == '\t' || c == '\n' || c == '\r'

/-- Models the JS String.prototype.trim call (ASCII whitespace). -/
def jsTrim (s : String) : String :=
  ⟨((s.data.dropWhile isWhitespaceChar).reverse.dropWhile isWhitespaceChar).reverse⟩

/-- Models the JS toLowerCase call (ASCII range). -/
def jsToLower (s : String) : String :=
  ⟨s.data.map Char.toLower⟩

/-- Models the JS String.prototype.startsWith call. -/
def strStartsWith (s p : String) : Bool :=
  List.isPrefixOf p.data s.data

/-- Match test of a stem against the critical roots: exact match, the stem
extends a root, or a root extends the stem. -/
def stemMatchesCriticalRoot (stem : String) : Bool :=
  CRITICAL_ROOTS.any (fun root =>
    stem == root || strStartsWith stem root || strStartsWith root stem)

/-- The matching loop of analyzeUrgency: tokens shorter than 2 characters are
skipped, matched surface forms are collected at most once each, in
first-occurrence order (the `seen` set plus push). -/
def collectCriticalMatches (stem : String → String) (seen acc : List String) :
    List String → List String
  | [] => acc
  | word :: rest =>
    if word.length < 2 then collectCriticalMatches stem seen acc rest
    else if stemMatchesCriticalRoot (stem word) && !(seen.contains word) then
      collectCriticalMatches stem (word :: seen) (acc ++ [word]) rest
    else collectCriticalMatches stem seen acc rest

/-- Models `AiService.analyzeUrgency`. The tokenizer and stemmer of the
`natural` library (AggressiveTokenizerFr, PorterStemmerFr) are external
collaborators, modeled as function parameters; `String.toLower` stands for
the JS lowercasing. -/
def analyzeUrgency (tokenize : String → List String) (stem : String → String)
    (description : String) : UrgencyAnalysisResult :=
  if description.data.isEmpty then { isCritical := false, matchedWords := [] }
  else
    let normalized := jsToLower (jsTrim description)
    if normalized.length == 0 then { isCritical := false, matchedWords := [] }
    else
      let matchedWords := collectCriticalMatches stem [] [] (tokenize normalized)
      { isCritical := !matchedWords.isEmpty, matchedWords := matchedWords }

/-- First-occurrence de-duplication, keeping relative order. -/
def dedupFirstOccurrence (seen : List String) : List String → List String
  | [] => []
  | w :: ws =>
    if seen.contains w then dedupFirstOccurrence seen ws
    else w :: dedupFirstOccurrence (w :: seen) ws

/-- The token filter the code actually applies: at least 2 characters and a
stem matching a critical root. -/
def codeTokenFilter (stem : String → String) (w : String) : Bool :=
  !decide (w.length < 2) && stemMatchesCriticalRoot (stem w)

/-- The matched-word list as the claim words it: the surface forms of ALL
tokens whose stems match a critical root (no length restriction),
de-duplicated, in first-occurrence order. Stated from the claim for
comparison with `analyzeUrgency`. -/
def claimMatchedWords (tokenize : String → List String) (stem : String → String)
    (description : String) : List String :=
  dedupFirstOccurrence []
    ((tokenize (jsToLower (jsTrim description))).filter
      (fun w => stemMatchesCriticalRoot (stem w)))

/-- Word accumulator splitting a character list at whitespace. -/
def wordsAux : List Char → List Char → List String
  | [], acc => if acc.isEmpty then [] else [⟨acc.reverse⟩]
  | c :: cs, acc =>
    if isWhitespaceChar c then
      if acc.isEmpty then wordsAux cs [] else String.mk acc.reverse :: wordsAux cs []
    else wordsAux cs (c :: acc)

/-- A whitespace tokenizer; on the one-letter counterexample input it behaves
exactly as the AggressiveTokenizerFr does. -/
def spaceTokenize (s : String) : List String :=
  wordsAux s.data []

end SOSBackend

namespace SOSBackend

theorem mem_insertDescBy (key : α → Nat) (a x : α) (l : List α) :
    x ∈ insertDescBy key a l ↔ x = a ∨ x ∈ l := by
  induction l with
  | nil => simp [insertDescBy]
  | cons b t ih =>
    by_cases h : key b < key a
    · simp [insertDescBy, h]
    · simp [insertDescBy, h, ih]
      tauto

theorem mem_sortByDesc (key : α → Nat) (x : α) (l : List α) :
    x ∈ sortByDesc key l ↔ x ∈ l := by
  induction l with
  | nil => simp [sortByDesc]
  | cons a t ih => simp [sortByDesc, mem_insertDescBy, ih]

theorem insertDescBy_map (key : α → Nat) (g : α → α)
    (hk : ∀ x, key (g x) = key x) (a : α) (l : List α) :
    insertDescBy key (g a) (l.map g) = (insertDescBy key a l).map g := by
  induction l with
  | nil => simp [insertDescBy]
  | cons b t ih =>
    by_cases h : key b < key a
    · simp [insertDescBy, hk, h]
    · simp [insertDescBy, hk, h, ih]

theorem sortByDesc_map (key : α → Nat) (g : α → α)
    (hk : ∀ x, key (g x) = key x) (l : List α) :
    sortByDesc key (l.map g) = (sortByDesc key l).map g := by
  induction l with
  | nil => simp [sortByDesc]
  | cons a t ih => simp [sortByDesc, ih, insertDescBy_map key g hk]

theorem find?_update_list (l : List ReportRec) (id : String)
    (f : ReportRec → ReportRec) (hf : ∀ x, (f x).id = x.id) :
    (l.map (fun x => if x.id == id then f x else x)).find? (fun x => x.id == id) =
      (l.find? (fun x => x.id == id)).map f := by
  induction l with
  | nil => rfl
  | cons a t ih =>
    by_cases h : a.id == id
    · have hfa : ((f a).id == id) = true := by rw [hf a]; exact h
      simp [List.find?, h, hfa, -List.find?_map]
    · have h' : (a.id == id) = false := by simpa using h
      simp [List.find?, h', -List.find?_map]
      simpa using ih

theorem find?_update_list_ne (l : List ReportRec) (id id' : String)
    (f : ReportRec → ReportRec) (hne : id ≠ id') (hf : ∀ x, (f x).id = x.id) :
    (l.map (fun x => if x.id == id' then f x else x)).find? (fun x => x.id == id) =
      l.find? (fun x => x.id == id) := by
  induction l with
  | nil => rfl
  | cons a t ih =>
    by_cases h : a.id == id'
    · have ha : a.id = id' := by simpa using h
      have hfa : ((f a).id == id) = false := by
        rw [hf a, ha]
        simpa using fun hc => hne hc.symm
      have haid : (a.id == id) = false := by
        rw [ha]
        simpa using fun hc => hne hc.symm
      simp [List.find?, h, hfa, haid, -List.find?_map]
      simpa using ih
    · have h' : (a.id == id') = false := by simpa using h
      by_cases hi : a.id == id
      · simp [List.find?, h', hi, -List.find?_map]
      · have hi' : (a.id == id) = false := by simpa using hi
        simp [List.find?, h', hi', -List.find?_map]
        simpa using ih

theorem find?_filter_keep (l : List α) (p q : α → Bool)
    (h : ∀ x, p x = true → q x = true) :
    (l.filter q).find? p = l.find? p := by
  induction l with
  | nil => rfl
  | cons a t ih =>
    by_cases hq : q a
    · by_cases hp : p a
      · simp [List.filter, List.find?, hq, hp]
      · have hp' : p a = false := by simpa using hp
        simp [List.filter, List.find?, hq, hp', ih]
    · have hq' : q a = false := by simpa using hq
      have hp' : p a = false := by
        by_contra hc
        have := h a (by simpa using hc)
        simp [hq'] at this
      simp [List.filter, List.find?, hq', hp', ih]

theorem find?_append_of_found (l₁ l₂ : List α) (p : α → Bool) (r : α)
    (h : l₁.find? p = some r) : (l₁ ++ l₂).find? p = some r := by
  induction l₁ with
  | nil => exact absurd h (by simp)
  | cons a t ih =>
    by_cases hp : p a
    · simp [List.find?, hp, -List.find?_append] at h ⊢
      exact h
    · have hp' : p a = false := by simpa using hp
      simp [List.find?, hp', -List.find?_append] at h ⊢
      exact ih h

theorem find?_map_eq (g : α → β) (p : β → Bool) (l : List α) :
    (l.map g).find? p = (l.find? (fun a => p (g a))).map g := by
  induction l with
  | nil => rfl
  | cons a t ih =>
    by_cases h : p (g a) <;> simp [List.find?, h, ih]

theorem filter_map_eq (g : α → β) (p : β → Bool) (l : List α) :
    (l.map g).filter p = (l.filter (fun a => p (g a))).map g := by
  induction l with
  | nil => rfl
  | cons a t ih =>
    by_cases h : p (g a) <;> simp [List.filter, h, ih]

/-- C1: for a declared non-empty required-permission list, the gate allows
iff every required permission is among the token claims; absent claims or an
absent permissions list deny with the no-permissions reason; with no declared
required-permission list every caller is allowed. -/
theorem C1_permissions_guard_decision
    (reqs : List String) (hne : reqs ≠ []) (u : RequestUser) (perms : List String) :
    (canActivate (some reqs) (some { u with permissions := some perms }) = .ok true ↔
        ∀ p ∈ reqs, p ∈ perms)
    ∧ ((¬ ∀ p ∈ reqs, p ∈ perms) →
        canActivate (some reqs) (some { u with permissions := some perms }) =
          .error (.forbidden
            ("Missing required permissions: " ++ String.intercalate ", " reqs)))
    ∧ canActivate (some reqs) none = .error (.forbidden "No permissions found")
    ∧ canActivate (some reqs) (some { u with permissions := none }) =
        .error (.forbidden "No permissions found")
    ∧ (∀ anyUser, canActivate none anyUser = .ok true) := by
  have hne' : reqs.isEmpty = false := by
    cases reqs with
    | nil => exact absurd rfl hne
    | cons a t => rfl
  have hred : canActivate (some reqs) (some { u with permissions := some perms }) =
      (if reqs.all (fun p => perms.contains p) then .ok true
       else .error (.forbidden
         ("Missing required permissions: " ++ String.intercalate ", " reqs))) := by
    simp [canActivate, hne']
  have hmem : (reqs.all (fun p => perms.contains p) = true) ↔ ∀ p ∈ reqs, p ∈ perms := by
    constructor
    · intro hall p hp
      simpa using List.all_eq_true.mp hall p hp
    · intro h
      exact List.all_eq_true.mpr (fun p hp => by simpa using h p hp)
  refine ⟨?_, ?_, ?_, ?_, ?_⟩
  · constructor
    · intro h
      by_cases hall : reqs.all (fun p => perms.contains p)
      · exact hmem.mp hall
      · rw [hred, if_neg hall] at h
        exact absurd h (by simp)
    · intro h
      rw [hred, if_pos (hmem.mpr h)]
  · intro h
    rw [hred, if_neg (fun hall => h (hmem.mp hall))]
  · simp [canActivate, hne']
  · simp [canActivate, hne']
  · intro anyUser
    rfl

/-- Witness for C1 at a concrete required list and claim set. -/
theorem C1_permissions_guard_decision_witness :
    (["REPORT_CREATE"] : List String) ≠ [] ∧
    (canActivate (some ["REPORT_CREATE"])
        (some { sub := "u1", email := "a@sos.tn", role := "Psychologue",
                permissions := some ["REPORT_CREATE", "REPORT_READ"] }) = .ok true ↔
      ∀ p ∈ ["REPORT_CREATE"], p ∈ ["REPORT_CREATE", "REPORT_READ"]) := by
  refine ⟨by decide, ?_⟩
  have h := C1_permissions_guard_decision ["REPORT_CREATE"] (by decide)
    { sub := "u1", email := "a@sos.tn", role := "Psychologue",
      permissions := some ["REPORT_CREATE", "REPORT_READ"] }
    ["REPORT_CREATE", "REPORT_READ"]
  exact h.1

/-- C4: sign-in for a user whose status is not APPROVED always fails with an
Unauthenticated error, for every supplied password and every bcrypt behavior:
the status gate is decided before password verification. -/
theorem C4_signin_rejects_unapproved (s : Store) (dto : SignInDto) (u : UserRec)
    (hfind : findUserByEmail s dto.email = some u) (hstatus : u.status ≠ .APPROVED)
    (bcryptCompare : String → String → Bool) (jwtSign : JwtPayloadData → String) :
    AuthService.signIn s dto bcryptCompare jwtSign =
      .error (.unauthorized
        (if u.status = .PENDING then pendingApprovalMsg
         else registrationRejectedMsg)) := by
  unfold AuthService.signIn
  rw [hfind]
  cases hst : u.status with
  | PENDING => simp [hst]
  | APPROVED => exact absurd hst hstatus
  | REJECTED => simp [hst]

/-- Witness for C4: a PENDING user is refused even with the matching password
and a bcrypt comparator that accepts it. -/
theorem C4_signin_rejects_unapproved_witness :
    AuthService.signIn
      { users := [{ id := "u1", email := "p@sos.tn", password := "secret",
                    firstName := "Pe", lastName := "Nd", roleId := "r1",
                    villageName := none, villageId := none, status := .PENDING,
                    createdAt := 0 }],
        roles := [], villages := [], reports := [], documents := [],
        auditLogs := [], notifications := [] }
      { email := "p@sos.tn", password := "secret" }
      (fun supplied stored => supplied == "secret" && stored == "secret")
      (fun _ => "token") =
      .error (.unauthorized pendingApprovalMsg) := by
  have h := C4_signin_rejects_unapproved
    { users := [{ id := "u1", email := "p@sos.tn", password := "secret",
                  firstName := "Pe", lastName := "Nd", roleId := "r1",
                  villageName := none, villageId := none, status := .PENDING,
                  createdAt := 0 }],
      roles := [], villages := [], reports := [], documents := [],
      auditLogs := [], notifications := [] }
    { email := "p@sos.tn", password := "secret" }
    { id := "u1", email := "p@sos.tn", password := "secret",
      firstName := "Pe", lastName := "Nd", roleId := "r1",
      villageName := none, villageId := none, status := .PENDING, createdAt := 0 }
    (by decide) (by decide)
    (fun supplied stored => supplied == "secret" && stored == "secret")
    (fun _ => "token")
  simpa using h

/-- C8: deleting an existing role fails with a Conflict error exactly when at
least one user references it; with no referencing user the role is removed
and the delete succeeds. -/
theorem C8_delete_role_conflict_iff_referenced (s : Store) (id : String)
    (role : RoleRec) (hfind : findRole s id = some role) :
    (RoleService.remove s id =
        .error (.badRequest
          ("Cannot delete role \"" ++ role.name ++ "\". " ++
            toString (usersWithRole s id).length ++
            " user(s) are assigned to this role."))
      ↔ ∃ u ∈ s.users, u.roleId = id)
    ∧ ((¬ ∃ u ∈ s.users, u.roleId = id) →
        RoleService.remove s id =
          .ok ({ s with roles := s.roles.filter (fun r => !(r.id == id)) },
               { message := "Role deleted successfully" }) ∧
        findRole { s with roles := s.roles.filter (fun r => !(r.id == id)) } id =
          none) := by
  have hcnt : (0 < (usersWithRole s id).length) ↔ ∃ u ∈ s.users, u.roleId = id := by
    rw [List.length_pos_iff_exists_mem]
    constructor
    · rintro ⟨u, hu⟩
      have hm := List.mem_filter.mp hu
      exact ⟨u, hm.1, by simpa using hm.2⟩
    · rintro ⟨u, hu, hrid⟩
      exact ⟨u, List.mem_filter.mpr ⟨hu, by simpa using hrid⟩⟩
  refine ⟨⟨?_, ?_⟩, ?_⟩
  · intro herr
    by_contra hno
    have hz : ¬ 0 < (usersWithRole s id).length := fun h => hno (hcnt.mp h)
    unfold RoleService.remove at herr
    rw [hfind] at herr
    simp only [hz, if_false, reduceIte] at herr
    exact Except.noConfusion herr
  · intro hex
    have hpos := hcnt.mpr hex
    unfold RoleService.remove
    rw [hfind]
    simp only [hpos, if_true, reduceIte]
  · intro hno
    have hz : ¬ 0 < (usersWithRole s id).length := fun h => hno (hcnt.mp h)
    constructor
    · unfold RoleService.remove
      rw [hfind]
      simp only [hz, if_false, reduceIte]
    · refine List.find?_eq_none.mpr ?_
      intro r hr
      have := (List.mem_filter.mp hr).2
      simpa using this

/-- Witness for C8: with an existing unreferenced role, delete succeeds and
removes the role. -/
theorem C8_delete_role_conflict_iff_referenced_witness :
    (¬ ∃ u ∈ ([] : List UserRec), u.roleId = "r1") ∧
    RoleService.remove
      { users := [], roles := [{ id := "r1", name := "Temp", description := none,
                                 permissions := [] }],
        villages := [], reports := [], documents := [], auditLogs := [],
        notifications := [] } "r1" =
      .ok ({ users := [], roles := [], villages := [], reports := [],
             documents := [], auditLogs := [], notifications := [] },
           { message := "Role deleted successfully" }) := by
  refine ⟨by simp, ?_⟩
  have h := (C8_delete_role_conflict_iff_referenced
    { users := [], roles := [{ id := "r1", name := "Temp", description := none,
                               permissions := [] }],
      villages := [], reports := [], documents := [], auditLogs := [],
      notifications := [] } "r1"
    { id := "r1", name := "Temp", description := none, permissions := [] }
    (by decide)).2 (by simp)
  simpa using h.1

/-- C2: every mutating operation on an archived report — update, assign,
classify, close, document upload, and delete — fails with its
archived-immutability error (the spec's ArchivedImmutable class), before any
write: the error result pins the store untouched, so every field of the
report and of its documents is unchanged. -/
theorem C2_archived_reports_immutable (s : Store) (id : String) (r : ReportRec)
    (hfind : findReport s id = some r) (harch : r.isArchived = true) :
    (∀ dto userId userRole files anonymizeAudio now,
      ReportService.update s id dto userId userRole files anonymizeAudio now =
        .error (.forbidden archivedErrorMsg))
    ∧ (∀ dto userId now,
        ReportService.assign s id dto userId now =
          .error (.forbidden archivedErrorMsg))
    ∧ (∀ dto userId now,
        ReportService.classify s id dto userId now =
          .error (.forbidden archivedErrorMsg))
    ∧ (∀ dto userId now,
        ReportService.close s id dto userId now =
          .error (.badRequest archivedCloseMsg))
    ∧ (∀ documentType file userId userName newId now,
        DocumentService.upload s id documentType file userId userName newId now =
          .error (.forbidden archivedDocMsg))
    ∧ (∀ userId now,
        ReportService.remove s id userId now =
          .error (.forbidden archivedDeleteMsg))
    ∧ ((AppError.forbidden archivedErrorMsg).isArchivedImmutable = true
        ∧ (AppError.badRequest archivedCloseMsg).isArchivedImmutable = true
        ∧ (AppError.forbidden archivedDocMsg).isArchivedImmutable = true
        ∧ (AppError.forbidden archivedDeleteMsg).isArchivedImmutable = true) := by
  refine ⟨?_, ?_, ?_, ?_, ?_, ?_, ?_⟩
  · intro dto userId userRole files anonymizeAudio now
    simp [ReportService.update, hfind, harch]
  · intro dto userId now
    simp [ReportService.assign, hfind, harch]
  · intro dto userId now
    simp [ReportService.classify, hfind, harch]
  · intro dto userId now
    simp [ReportService.close, hfind, harch]
  · intro documentType file userId userName newId now
    simp [DocumentService.upload, hfind, harch]
  · intro userId now
    simp [ReportService.remove, hfind, harch]
  · exact ⟨by decide, by decide, by decide, by decide⟩

/-- Witness for C2 on a concrete archived report. -/
theorem C2_archived_reports_immutable_witness :
    ReportService.update
      { users := [], roles := [], villages := [],
        reports := [{ id := "rep1", incidentType := "violence",
                      urgency := "HAUTE", isAnonymous := false, villageId := "v1",
                      villageName := some "Village Gammarth",
                      childName := "Enfant X", abuserName := none,
                      description := "desc", notes := none, attachments := [],
                      status := "CLOTURE", reporterId := "u1", analystId := none,
                      isArchived := true, closureDecision := some "suivi",
                      closedAt := some 5, createdAt := 1 }],
        documents := [], auditLogs := [], notifications := [] }
      "rep1"
      { incidentType := none, urgency := none, isAnonymous := none,
        villageId := none, childName := none, abuserName := none,
        description := none, status := none, notes := none }
      "caller" "SuperAdmin" [] (fun f => .ok f) 9 =
      .error (.forbidden archivedErrorMsg) ∧
    ReportService.close
      { users := [], roles := [], villages := [],
        reports := [{ id := "rep1", incidentType := "violence",
                      urgency := "HAUTE", isAnonymous := false, villageId := "v1",
                      villageName := some "Village Gammarth",
                      childName := "Enfant X", abuserName := none,
                      description := "desc", notes := none, attachments := [],
                      status := "CLOTURE", reporterId := "u1", analystId := none,
                      isArchived := true, closureDecision := some "suivi",
                      closedAt := some 5, createdAt := 1 }],
        documents := [], auditLogs := [], notifications := [] }
      "rep1" { closureDecision := "suivi", closureNotes := "n" } "caller" 9 =
      .error (.badRequest archivedCloseMsg) := by
  have h := C2_archived_reports_immutable
    { users := [], roles := [], villages := [],
      reports := [{ id := "rep1", incidentType := "violence",
                    urgency := "HAUTE", isAnonymous := false, villageId := "v1",
                    villageName := some "Village Gammarth",
                    childName := "Enfant X", abuserName := none,
                    description := "desc", notes := none, attachments := [],
                    status := "CLOTURE", reporterId := "u1", analystId := none,
                    isArchived := true, closureDecision := some "suivi",
                    closedAt := some 5, createdAt := 1 }],
      documents := [], auditLogs := [], notifications := [] }
    "rep1"
    { id := "rep1", incidentType := "violence", urgency := "HAUTE",
      isAnonymous := false, villageId := "v1",
      villageName := some "Village Gammarth", childName := "Enfant X",
      abuserName := none, description := "desc", notes := none,
      attachments := [], status := "CLOTURE", reporterId := "u1",
      analystId := none, isArchived := true, closureDecision := some "suivi",
      closedAt := some 5, createdAt := 1 }
    (by decide) (by decide)
  exact ⟨h.1
    { incidentType := none, urgency := none, isAnonymous := none,
      villageId := none, childName := none, abuserName := none,
      description := none, status := none, notes := none }
    "caller" "SuperAdmin" [] (fun f => .ok f) 9,
    h.2.2.2.1 { closureDecision := "suivi", closureNotes := "n" } "caller" 9⟩

/-- A successful create only appends one report. -/
theorem create_ok_reports {s : Store} {dto : CreateReportDto} {reporterId : String}
    {files : List MulterFile} {anonymizeAudio : MulterFile → Except Unit MulterFile}
    {newId : String} {now : Nat} {s' : Store} {resp : CreateResponse}
    (h : ReportService.create s dto reporterId files anonymizeAudio newId now =
      .ok (s', resp)) :
    ∃ rep, s'.reports = s.reports ++ [rep] := by
  unfold ReportService.create at h
  split at h
  · exact Except.noConfusion h
  · split at h
    · exact Except.noConfusion h
    · injection h with h'
      rw [Prod.mk.injEq] at h'
      obtain ⟨h1, h2⟩ := h'
      subst h1
      split
      · exact ⟨_, rfl⟩
      · exact ⟨_, rfl⟩

/-- Shape of a successful update: the targeted report existed, was not
archived, only that record is rewritten, and the response is the
anonymity-aware view of the updated record. -/
theorem update_ok_shape {s : Store} {id : String} {dto : UpdateReportDto}
    {userId userRole : String} {files : List MulterFile}
    {anonymizeAudio : MulterFile → Except Unit MulterFile} {now : Nat}
    {s' : Store} {resp : UpdateResponse}
    (h : ReportService.update s id dto userId userRole files anonymizeAudio now =
      .ok (s', resp)) :
    ∃ (rep : ReportRec) (pfs : List MulterFile),
      findReport s id = some rep ∧ rep.isArchived = false ∧
      s'.reports = s.reports.map (fun x => if x.id == id then
        applyUpdateDto dto (rep.attachments ++ pfs.map mkAttachment) x else x) ∧
      resp = { message := "Report updated successfully",
               report := updateResponseView s userId userRole
                 (applyUpdateDto dto (rep.attachments ++ pfs.map mkAttachment) rep) } := by
  unfold ReportService.update at h
  split at h
  · exact Except.noConfusion h
  · rename_i rep hfind
    split at h
    · exact Except.noConfusion h
    · rename_i harch
      split at h
      · exact Except.noConfusion h
      · split at h
        · exact Except.noConfusion h
        · rename_i pfs hpfs
          injection h with h'
          rw [Prod.mk.injEq] at h'
          obtain ⟨h1, h2⟩ := h'
          subst h1
          subst h2
          exact ⟨rep, pfs, hfind, by simpa using harch, rfl, rfl⟩

/-- Shape of a successful assign. -/
theorem assign_ok_shape {s : Store} {id : String} {dto : AssignReportDto}
    {userId : String} {now : Nat} {s' : Store} {resp : AssignResponse}
    (h : ReportService.assign s id dto userId now = .ok (s', resp)) :
    ∃ (rep : ReportRec) (analyst : UserRec) (analystRole : RoleRec),
      findReport s id = some rep ∧
      rep.isArchived = false ∧
      findUser s dto.analystId = some analyst ∧
      findRole s analyst.roleId = some analystRole ∧
      analystRole.name ∈ validAnalystRoles ∧
      s'.reports = s.reports.map (fun x => if x.id == id then
        { x with analystId := some dto.analystId, status := "EN_COURS" } else x) ∧
      resp.report = { rep with
                      analystId := some dto.analystId,
                      status := "EN_COURS" } := by
  unfold ReportService.assign at h
  split at h
  · exact Except.noConfusion h
  · rename_i rep hfind
    split at h
    · exact Except.noConfusion h
    · rename_i harch
      split at h
      · exact Except.noConfusion h
      · rename_i analyst hanalyst
        split at h
        · exact Except.noConfusion h
        · rename_i analystRole hrole
          split at h
          · exact Except.noConfusion h
          · rename_i hlist
            injection h with h'
            rw [Prod.mk.injEq] at h'
            obtain ⟨h1, h2⟩ := h'
            subst h1
            subst h2
            refine ⟨rep, analyst, analystRole, hfind, by simpa using harch,
              hanalyst, hrole, ?_, rfl, rfl⟩
            simpa using hlist

/-- Shape of a successful classify. -/
theorem classify_ok_shape {s : Store} {id : String} {dto : ClassifyReportDto}
    {userId : String} {now : Nat} {s' : Store} {resp : ClassifyResponse}
    (h : ReportService.classify s id dto userId now = .ok (s', resp)) :
    ∃ (rep : ReportRec), findReport s id = some rep ∧ rep.isArchived = false ∧
      s'.reports = s.reports.map (fun x => if x.id == id then
        { x with status := dto.classification, closedAt := some now } else x) := by
  unfold ReportService.classify at h
  split at h
  · exact Except.noConfusion h
  · rename_i rep hfind
    split at h
    · exact Except.noConfusion h
    · rename_i harch
      injection h with h'
      rw [Prod.mk.injEq] at h'
      obtain ⟨h1, h2⟩ := h'
      subst h1
      exact ⟨rep, hfind, by simpa using harch, rfl⟩

/-- Shape of a successful close: the closure-document gate had passed, and
the single update wrote status CLOTURE, closedAt, isArchived and the
closure decision. -/
theorem close_ok_shape {s : Store} {id : String} {dto : CloseReportDto}
    {userId : String} {now : Nat} {s' : Store} {resp : CloseResponse}
    (h : ReportService.close s id dto userId now = .ok (s', resp)) :
    ∃ (rep : ReportRec), findReport s id = some rep ∧ rep.isArchived = false ∧
      (documentsOf s id).any (fun d => d.type == "CLOTURE") = true ∧
      s'.reports = s.reports.map (fun x => if x.id == id then
        { x with
          status := "CLOTURE", closedAt := some now, isArchived := true,
          closureDecision := some dto.closureDecision } else x) ∧
      resp.report = { rep with
                      status := "CLOTURE", closedAt := some now,
                      isArchived := true,
                      closureDecision := some dto.closureDecision } := by
  unfold ReportService.close at h
  split at h
  · exact Except.noConfusion h
  · rename_i rep hfind
    split at h
    · exact Except.noConfusion h
    · rename_i harch
      simp only [] at h
      split at h
      · exact Except.noConfusion h
      · rename_i hdocs
        injection h with h'
        rw [Prod.mk.injEq] at h'
        obtain ⟨h1, h2⟩ := h'
        subst h1
        subst h2
        refine ⟨rep, hfind, by simpa using harch, ?_, rfl, rfl⟩
        simpa using hdocs

/-- Shape of a successful report delete. -/
theorem remove_ok_shape {s : Store} {id userId : String} {now : Nat}
    {s' : Store} {resp : MessageResponse}
    (h : ReportService.remove s id userId now = .ok (s', resp)) :
    ∃ (rep : ReportRec), findReport s id = some rep ∧ rep.isArchived = false ∧
      s'.reports = s.reports.filter (fun x => !(x.id == id)) := by
  unfold ReportService.remove at h
  split at h
  · exact Except.noConfusion h
  · rename_i rep hfind
    split at h
    · exact Except.noConfusion h
    · rename_i harch
      injection h with h'
      rw [Prod.mk.injEq] at h'
      obtain ⟨h1, h2⟩ := h'
      subst h1
      exact ⟨rep, hfind, by simpa using harch, rfl⟩

/-- Document upload does not change the report collection. -/
theorem upload_ok_reports {s : Store} {reportId documentType : String}
    {file : MulterFile} {userId userName newId : String} {now : Nat}
    {s' : Store} {resp : UploadResponse}
    (h : DocumentService.upload s reportId documentType file userId userName newId now =
      .ok (s', resp)) : s'.reports = s.reports := by
  unfold DocumentService.upload at h
  split at h
  · exact Except.noConfusion h
  · split at h
    · exact Except.noConfusion h
    · injection h with h'
      rw [Prod.mk.injEq] at h'
      obtain ⟨h1, h2⟩ := h'
      subst h1
      split
      · split
        · rfl
        · rfl
      · rfl

/-- Document delete does not change the report collection. -/
theorem docremove_ok_reports {s : Store} {id userId : String}
    {userPermissions : List String} {now : Nat} {s' : Store} {resp : MessageResponse}
    (h : DocumentService.remove s id userId userPermissions now = .ok (s', resp)) :
    s'.reports = s.reports := by
  unfold DocumentService.remove at h
  split at h
  · exact Except.noConfusion h
  · split at h
    · exact Except.noConfusion h
    · injection h with h'
      rw [Prod.mk.injEq] at h'
      obtain ⟨h1, h2⟩ := h'
      subst h1
      rfl

/-- One successful operation leaves an archived report record untouched. -/
theorem step_preserves_archived {s s' : Store} (hstep : Step s s')
    (id : String) (r : ReportRec) (hfind : findReport s id = some r)
    (harch : r.isArchived = true) : findReport s' id = some r := by
  cases hstep with
  | create dto reporterId files anonymizeAudio newId now s' resp h =>
    obtain ⟨rep, hrep⟩ := create_ok_reports h
    unfold findReport at hfind ⊢
    rw [hrep]
    exact find?_append_of_found _ _ _ _ hfind
  | update id' dto userId userRole files anonymizeAudio now s' resp h =>
    obtain ⟨rep, pfs, hfind', hnarch, hreports, _⟩ := update_ok_shape h
    have hne : id ≠ id' := by
      intro he
      subst he
      rw [hfind] at hfind'
      injection hfind' with he'
      rw [← he'] at hnarch
      rw [harch] at hnarch
      exact Bool.noConfusion hnarch
    unfold findReport at hfind ⊢
    rw [hreports]
    exact (find?_update_list_ne _ id id'
      (applyUpdateDto dto (rep.attachments ++ pfs.map mkAttachment)) hne
      (fun x => rfl)).trans hfind
  | assign id' dto userId now s' resp h =>
    obtain ⟨rep, analyst, analystRole, hfind', hnarch, _, _, _, hreports, _⟩ :=
      assign_ok_shape h
    have hne : id ≠ id' := by
      intro he
      subst he
      rw [hfind] at hfind'
      injection hfind' with he'
      rw [← he'] at hnarch
      rw [harch] at hnarch
      exact Bool.noConfusion hnarch
    unfold findReport at hfind ⊢
    rw [hreports]
    exact (find?_update_list_ne _ id id'
      (fun x => { x with analystId := some dto.analystId, status := "EN_COURS" })
      hne (fun x => rfl)).trans hfind
  | classify id' dto userId now s' resp h =>
    obtain ⟨rep, hfind', hnarch, hreports⟩ := classify_ok_shape h
    have hne : id ≠ id' := by
      intro he
      subst he
      rw [hfind] at hfind'
      injection hfind' with he'
      rw [← he'] at hnarch
      rw [harch] at hnarch
      exact Bool.noConfusion hnarch
    unfold findReport at hfind ⊢
    rw [hreports]
    exact (find?_update_list_ne _ id id'
      (fun x => { x with status := dto.classification, closedAt := some now })
      hne (fun x => rfl)).trans hfind
  | close id' dto userId now s' resp h =>
    obtain ⟨rep, hfind', hnarch, _, hreports, _⟩ := close_ok_shape h
    have hne : id ≠ id' := by
      intro he
      subst he
      rw [hfind] at hfind'
      injection hfind' with he'
      rw [← he'] at hnarch
      rw [harch] at hnarch
      exact Bool.noConfusion hnarch
    unfold findReport at hfind ⊢
    rw [hreports]
    exact (find?_update_list_ne _ id id'
      (fun x => { x with
        status := "CLOTURE", closedAt := some now, isArchived := true,
        closureDecision := some dto.closureDecision })
      hne (fun x => rfl)).trans hfind
  | removeReport id' userId now s' resp h =>
    obtain ⟨rep, hfind', hnarch, hreports⟩ := remove_ok_shape h
    have hne : id ≠ id' := by
      intro he
      subst he
      rw [hfind] at hfind'
      injection hfind' with he'
      rw [← he'] at hnarch
      rw [harch] at hnarch
      exact Bool.noConfusion hnarch
    unfold findReport at hfind ⊢
    rw [hreports]
    refine (find?_filter_keep _ _ _ ?_).trans hfind
    intro x hx
    have hxid : x.id = id := by simpa using hx
    have hb : (x.id == id') = false := by
      rw [hxid]
      simpa using hne
    simp [hb]
  | uploadDocument reportId documentType file userId userName newId now s' resp h =>
    have hreports := upload_ok_reports h
    unfold findReport at hfind ⊢
    rw [hreports]
    exact hfind
  | removeDocument id' userId userPermissions now s' resp h =>
    have hreports := docremove_ok_reports h
    unfold findReport at hfind ⊢
    rw [hreports]
    exact hfind

/-- Any sequence of successful operations leaves an archived report record
untouched: archival is permanent. -/
theorem steps_preserve_archived {s s' : Store}
    (h : Relation.ReflTransGen Step s s') (id : String) (r : ReportRec)
    (hfind : findReport s id = some r) (harch : r.isArchived = true) :
    findReport s' id = some r := by
  induction h with
  | refl => exact hfind
  | tail hsteps hstep ih => exact step_preserves_archived hstep id r ih harch

/-- C3: on a non-archived report, close fails with the FailedPrecondition
error when no closure-type (CLOTURE) document exists, leaving the report
unchanged (the error result pins the store untouched); when one exists, the
single update sets status CLOTURE, isArchived, closedAt and closureDecision
together, and the archived record persists unchanged across every later
sequence of successful mutating operations. -/
theorem C3_close_gate_and_permanent_archival (s : Store) (id : String)
    (r : ReportRec) (dto : CloseReportDto) (userId : String) (now : Nat)
    (hfind : findReport s id = some r) (harch : r.isArchived = false) :
    ((documentsOf s id).any (fun d => d.type == "CLOTURE") = false →
      ReportService.close s id dto userId now = .error (.badRequest closureDocMsg))
    ∧ ((documentsOf s id).any (fun d => d.type == "CLOTURE") = true →
      ∃ s' resp, ReportService.close s id dto userId now = .ok (s', resp) ∧
        resp.report = { r with
          status := "CLOTURE", closedAt := some now, isArchived := true,
          closureDecision := some dto.closureDecision } ∧
        findReport s' id = some { r with
          status := "CLOTURE", closedAt := some now, isArchived := true,
          closureDecision := some dto.closureDecision } ∧
        (∀ s'', Relation.ReflTransGen Step s' s'' →
          findReport s'' id = some { r with
            status := "CLOTURE", closedAt := some now, isArchived := true,
            closureDecision := some dto.closureDecision })) := by
  constructor
  · intro hdocs
    simp [ReportService.close, hfind, harch, hdocs]
  · intro hdocs
    have hclose : ReportService.close s id dto userId now = .ok
        (appendAudit (updateReportIn s id (fun x => { x with
            status := "CLOTURE", closedAt := some now, isArchived := true,
            closureDecision := some dto.closureDecision }))
          "REPORT_ARCHIVED"
          ("Case closed and archived. Decision: " ++ dto.closureDecision ++
            ". Notes: " ++ dto.closureNotes) userId (some id) now,
         { message := "Case closed and archived successfully. Report is now read-only and cannot be modified.",
           report := { r with
             status := "CLOTURE", closedAt := some now, isArchived := true,
             closureDecision := some dto.closureDecision },
           reporter := nameViewOf s r.reporterId,
           analyst := nameViewOfOption s r.analystId,
           documents := documentsOf s id }) := by
      simp [ReportService.close, hfind, harch, hdocs]
    have hfound : findReport
        (appendAudit (updateReportIn s id (fun x => { x with
            status := "CLOTURE", closedAt := some now, isArchived := true,
            closureDecision := some dto.closureDecision }))
          "REPORT_ARCHIVED"
          ("Case closed and archived. Decision: " ++ dto.closureDecision ++
            ". Notes: " ++ dto.closureNotes) userId (some id) now) id =
        some { r with
          status := "CLOTURE", closedAt := some now, isArchived := true,
          closureDecision := some dto.closureDecision } := by
      refine (find?_update_list s.reports id (fun x => { x with
          status := "CLOTURE", closedAt := some now, isArchived := true,
          closureDecision := some dto.closureDecision }) (fun x => rfl)).trans ?_
      have hfind' : s.reports.find? (fun x => x.id == id) = some r := hfind
      rw [hfind']
      rfl
    refine ⟨_, _, hclose, rfl, hfound, ?_⟩
    intro s'' hsteps
    exact steps_preserve_archived hsteps id _ hfound rfl

/-- Witness for C3: closing a concrete report that has a CLOTURE document
succeeds and archives it. -/
theorem C3_close_gate_and_permanent_archival_witness :
    (documentsOf
      { users := [], roles := [], villages := [],
        reports := [{ id := "rep1", incidentType := "violence",
                      urgency := "HAUTE", isAnonymous := false, villageId := "v1",
                      villageName := none, childName := "Enfant X",
                      abuserName := none, description := "desc", notes := none,
                      attachments := [], status := "EN_COURS",
                      reporterId := "u1", analystId := none, isArchived := false,
                      closureDecision := none, closedAt := none, createdAt := 1 }],
        documents := [{ id := "d1", type := "CLOTURE",
                        fileUrl := "/uploads/d1.pdf", uploadedBy := "an@sos.tn",
                        reportId := "rep1", createdAt := 2 }],
        auditLogs := [], notifications := [] } "rep1").any
      (fun d => d.type == "CLOTURE") = true ∧
    (∃ s' resp, ReportService.close
      { users := [], roles := [], villages := [],
        reports := [{ id := "rep1", incidentType := "violence",
                      urgency := "HAUTE", isAnonymous := false, villageId := "v1",
                      villageName := none, childName := "Enfant X",
                      abuserName := none, description := "desc", notes := none,
                      attachments := [], status := "EN_COURS",
                      reporterId := "u1", analystId := none, isArchived := false,
                      closureDecision := none, closedAt := none, createdAt := 1 }],
        documents := [{ id := "d1", type := "CLOTURE",
                        fileUrl := "/uploads/d1.pdf", uploadedBy := "an@sos.tn",
                        reportId := "rep1", createdAt := 2 }],
        auditLogs := [], notifications := [] }
      "rep1" { closureDecision := "suivi", closureNotes := "done" } "u9" 9 =
      .ok (s', resp) ∧
      resp.report.status = "CLOTURE" ∧ resp.report.isArchived = true) := by
  refine ⟨by decide, ?_⟩
  have h := (C3_close_gate_and_permanent_archival
    { users := [], roles := [], villages := [],
      reports := [{ id := "rep1", incidentType := "violence",
                    urgency := "HAUTE", isAnonymous := false, villageId := "v1",
                    villageName := none, childName := "Enfant X",
                    abuserName := none, description := "desc", notes := none,
                    attachments := [], status := "EN_COURS",
                    reporterId := "u1", analystId := none, isArchived := false,
                    closureDecision := none, closedAt := none, createdAt := 1 }],
      documents := [{ id := "d1", type := "CLOTURE",
                      fileUrl := "/uploads/d1.pdf", uploadedBy := "an@sos.tn",
                      reportId := "rep1", createdAt := 2 }],
      auditLogs := [], notifications := [] }
    "rep1"
    { id := "rep1", incidentType := "violence", urgency := "HAUTE",
      isAnonymous := false, villageId := "v1", villageName := none,
      childName := "Enfant X", abuserName := none, description := "desc",
      notes := none, attachments := [], status := "EN_COURS",
      reporterId := "u1", analystId := none, isArchived := false,
      closureDecision := none, closedAt := none, createdAt := 1 }
    { closureDecision := "suivi", closureNotes := "done" } "u9" 9
    (by decide) (by decide)).2 (by decide)
  obtain ⟨s', resp, hcl, hrep, _, _⟩ := h
  refine ⟨s', resp, hcl, ?_, ?_⟩
  · rw [hrep]
  · rw [hrep]

/-- C7: assigning a non-archived report to an existing user whose role is
outside the analyst allow-list fails with InvalidArgument, leaving the report
unchanged (the error result pins the store untouched); with a role in the
allow-list, assign sets analystId to the target and status to IN_PROGRESS
(EN_COURS). -/
theorem C7_assign_analyst_allowlist (s : Store) (id : String) (r : ReportRec)
    (dto : AssignReportDto) (userId : String) (now : Nat)
    (hfind : findReport s id = some r) (harch : r.isArchived = false)
    (analyst : UserRec) (hanalyst : findUser s dto.analystId = some analyst)
    (analystRole : RoleRec)
    (hrole : findRole s analyst.roleId = some analystRole) :
    (analystRole.name ∉ validAnalystRoles →
      ReportService.assign s id dto userId now =
        .error (.badRequest ("User must have one of these roles: " ++
          String.intercalate ", " validAnalystRoles)))
    ∧ (analystRole.name ∈ validAnalystRoles →
      ∃ s' resp, ReportService.assign s id dto userId now = .ok (s', resp) ∧
        findReport s' id = some { r with
          analystId := some dto.analystId, status := "EN_COURS" } ∧
        resp.report = { r with
          analystId := some dto.analystId, status := "EN_COURS" }) := by
  constructor
  · intro hmem
    have hc : validAnalystRoles.contains analystRole.name = false := by
      simpa using hmem
    simp [ReportService.assign, hfind, harch, hanalyst, hrole, hc]
    exact hmem
  · intro hmem
    have hc : validAnalystRoles.contains analystRole.name = true := by
      simpa using hmem
    have hassign : ReportService.assign s id dto userId now = .ok
        ({ (appendAudit (updateReportIn s id (fun x => { x with
              analystId := some dto.analystId, status := "EN_COURS" }))
            "REPORT_ASSIGNED"
            ("Report assigned to " ++ analyst.firstName ++ " " ++
              analyst.lastName ++ " (" ++ analystRole.name ++ ")")
            userId (some id) now) with
          notifications := (appendAudit (updateReportIn s id (fun x => { x with
              analystId := some dto.analystId, status := "EN_COURS" }))
            "REPORT_ASSIGNED"
            ("Report assigned to " ++ analyst.firstName ++ " " ++
              analyst.lastName ++ " (" ++ analystRole.name ++ ")")
            userId (some id) now).notifications ++
            [{ userId := dto.analystId, type := "REPORT_ASSIGNED",
               title := "Nouveau signalement assigné",
               message := "Un signalement de type \"" ++ r.incidentType ++
                 "\" à " ++ (r.villageName.getD "undefined") ++
                 " vous a été assigné.",
               reportId := some id, isRead := false }] },
         { message := "Report assigned successfully",
           report := { r with
             analystId := some dto.analystId, status := "EN_COURS" },
           reporter := nameViewOf s r.reporterId,
           analyst := nameRoleViewOf s dto.analystId }) := by
      simp [ReportService.assign, hfind, harch, hanalyst, hrole, hc]
      exact hmem
    refine ⟨_, _, hassign, ?_, rfl⟩
    refine (find?_update_list s.reports id (fun x => { x with
        analystId := some dto.analystId, status := "EN_COURS" })
      (fun x => rfl)).trans ?_
    have hfind' : s.reports.find? (fun x => x.id == id) = some r := hfind
    rw [hfind']
    rfl

/-- Witness for C7: assigning to a user holding a non-analyst role fails with
the allow-list error. -/
theorem C7_assign_analyst_allowlist_witness :
    ("Mère SOS" ∉ validAnalystRoles) ∧
    ReportService.assign
      { users := [{ id := "u2", email := "m@sos.tn", password := "h",
                    firstName := "Ma", lastName := "Sos", roleId := "r2",
                    villageName := none, villageId := none, status := .APPROVED,
                    createdAt := 0 }],
        roles := [{ id := "r2", name := "Mère SOS", description := none,
                    permissions := ["REPORT_CREATE", "REPORT_READ"] }],
        villages := [],
        reports := [{ id := "rep1", incidentType := "violence",
                      urgency := "HAUTE", isAnonymous := false, villageId := "v1",
                      villageName := none, childName := "Enfant X",
                      abuserName := none, description := "desc", notes := none,
                      attachments := [], status := "ATTENTE",
                      reporterId := "u1", analystId := none, isArchived := false,
                      closureDecision := none, closedAt := none, createdAt := 1 }],
        documents := [], auditLogs := [], notifications := [] }
      "rep1" { analystId := "u2" } "u9" 9 =
      .error (.badRequest
        "User must have one of these roles: Psychologue, Assistant Social, Directeur") := by
  refine ⟨by decide, ?_⟩
  have h := (C7_assign_analyst_allowlist
    { users := [{ id := "u2", email := "m@sos.tn", password := "h",
                  firstName := "Ma", lastName := "Sos", roleId := "r2",
                  villageName := none, villageId := none, status := .APPROVED,
                  createdAt := 0 }],
      roles := [{ id := "r2", name := "Mère SOS", description := none,
                  permissions := ["REPORT_CREATE", "REPORT_READ"] }],
      villages := [],
      reports := [{ id := "rep1", incidentType := "violence",
                    urgency := "HAUTE", isAnonymous := false, villageId := "v1",
                    villageName := none, childName := "Enfant X",
                    abuserName := none, description := "desc", notes := none,
                    attachments := [], status := "ATTENTE",
                    reporterId := "u1", analystId := none, isArchived := false,
                    closureDecision := none, closedAt := none, createdAt := 1 }],
      documents := [], auditLogs := [], notifications := [] }
    "rep1"
    { id := "rep1", incidentType := "violence", urgency := "HAUTE",
      isAnonymous := false, villageId := "v1", villageName := none,
      childName := "Enfant X", abuserName := none, description := "desc",
      notes := none, attachments := [], status := "ATTENTE",
      reporterId := "u1", analystId := none, isArchived := false,
      closureDecision := none, closedAt := none, createdAt := 1 }
    { analystId := "u2" } "u9" 9 (by decide) (by decide)
    { id := "u2", email := "m@sos.tn", password := "h", firstName := "Ma",
      lastName := "Sos", roleId := "r2", villageName := none, villageId := none,
      status := .APPROVED, createdAt := 0 }
    (by decide)
    { id := "r2", name := "Mère SOS", description := none,
      permissions := ["REPORT_CREATE", "REPORT_READ"] }
    (by decide)).1 (by decide)
  simpa using h

theorem beq_eq_false_of_ne {x y : String} (h : x ≠ y) : (x == y) = false := by
  cases hb : x == y
  · rfl
  · exact absurd (by simpa using hb) h

theorem ne_of_beq_eq_false {x y : String} (h : (x == y) = false) : x ≠ y := by
  intro he
  subst he
  simp at h

theorem bne_eq_true_of_ne {x y : String} (h : x ≠ y) : (x != y) = true := by
  show (!(x == y)) = true
  rw [beq_eq_false_of_ne h]
  rfl

theorem ne_of_bne_eq_true {x y : String} (h : (x != y) = true) : x ≠ y := by
  intro he
  subst he
  simp at h

theorem contains_pair_iff (a b x : String) :
    ([a, b].contains x) = true ↔ x = a ∨ x = b := by
  constructor
  · intro h
    have hm : x ∈ [a, b] := List.mem_of_elem_eq_true h
    simpa using hm
  · intro h
    apply List.elem_eq_true_of_mem
    simpa using h

theorem contains_pair_eq_false (a b x : String) (h1 : x ≠ a) (h2 : x ≠ b) :
    ([a, b].contains x) = false := by
  cases hc : ([a, b].contains x)
  · rfl
  · rcases (contains_pair_iff a b x).mp hc with h | h
    · exact absurd h h1
    · exact absurd h h2

theorem ne_of_contains_pair_eq_false (a b x : String)
    (h : ([a, b].contains x) = false) : x ≠ a ∧ x ≠ b := by
  constructor
  · intro he
    rw [(contains_pair_iff a b x).mpr (Or.inl he)] at h
    exact Bool.noConfusion h
  · intro he
    rw [(contains_pair_iff a b x).mpr (Or.inr he)] at h
    exact Bool.noConfusion h

/-- Anonymity behavior of the update response view, for any updated record. -/
theorem updateResponseView_cases (s : Store) (userId userRole : String)
    (updated : ReportRec) :
    (updateResponseView s userId userRole updated).report = updated ∧
    ((updated.isAnonymous = true → (userRole ≠ "SuperAdmin" ∧ userRole ≠ "Directeur") →
        updated.reporterId ≠ userId →
        (updateResponseView s userId userRole updated).reporter =
          some anonymousSmallView) ∧
      ((userRole = "SuperAdmin" ∨ userRole = "Directeur" ∨
          updated.reporterId = userId) →
        (updateResponseView s userId userRole updated).reporter =
          userSmallViewOf s updated.reporterId)) := by
  unfold updateResponseView
  by_cases hcond : (updated.isAnonymous &&
      !(["SuperAdmin", "Directeur"].contains userRole
        || updated.reporterId == userId)) = true
  · rw [if_pos hcond]
    refine ⟨rfl, fun _ _ _ => rfl, ?_⟩
    intro hpriv
    exfalso
    rw [Bool.and_eq_true, Bool.not_eq_true', Bool.or_eq_false_iff] at hcond
    obtain ⟨hanon, hc1, hc2⟩ := hcond
    rcases hpriv with h1 | h1 | h1
    · exact (ne_of_contains_pair_eq_false _ _ _ hc1).1 h1
    · exact (ne_of_contains_pair_eq_false _ _ _ hc1).2 h1
    · exact ne_of_beq_eq_false hc2 h1
  · rw [if_neg hcond]
    refine ⟨rfl, ?_, fun _ => rfl⟩
    intro hanon hnonpriv hnotown
    exfalso
    apply hcond
    rw [Bool.and_eq_true, Bool.not_eq_true', Bool.or_eq_false_iff]
    exact ⟨hanon, contains_pair_eq_false _ _ _ hnonpriv.1 hnonpriv.2,
      beq_eq_false_of_ne hnotown⟩

/-- C5: anonymous-report visibility. Whenever a single-report read, a row of
a list read, or the post-update response payload is produced for an
anonymous report, the reporter subobject is the fixed Anonymous Reporter
placeholder for callers that are neither oversight-tier (SuperAdmin or
Directeur) nor the original reporter, and the true joined reporter fields for
oversight-tier callers or the original reporter. -/
theorem C5_anonymous_reporter_visibility (s : Store) (userId userRole : String) :
    (∀ id detail, ReportService.findOne s id userId userRole = .ok detail →
      ((detail.report.isAnonymous = true →
          (userRole ≠ "SuperAdmin" ∧ userRole ≠ "Directeur") →
          detail.report.reporterId ≠ userId →
          detail.reporter = some (anonymousReporterView detail.report)) ∧
        ((userRole = "SuperAdmin" ∨ userRole = "Directeur" ∨
            detail.report.reporterId = userId) →
          detail.reporter = reporterViewOf s detail.report)))
    ∧ (∀ filters item,
        item ∈ (ReportService.findAll s userId userRole filters).data →
        ((item.report.isAnonymous = true →
            (userRole ≠ "SuperAdmin" ∧ userRole ≠ "Directeur") →
            item.report.reporterId ≠ userId →
            item.reporter = some (anonymousReporterView item.report)) ∧
          ((userRole = "SuperAdmin" ∨ userRole = "Directeur" ∨
              item.report.reporterId = userId) →
            item.reporter = reporterViewOf s item.report)))
    ∧ (∀ id dto files anonymizeAudio now s' resp,
        ReportService.update s id dto userId userRole files anonymizeAudio now =
          .ok (s', resp) →
        ((resp.report.report.isAnonymous = true →
            (userRole ≠ "SuperAdmin" ∧ userRole ≠ "Directeur") →
            resp.report.report.reporterId ≠ userId →
            resp.report.reporter = some anonymousSmallView) ∧
          ((userRole = "SuperAdmin" ∨ userRole = "Directeur" ∨
              resp.report.report.reporterId = userId) →
            resp.report.reporter =
              userSmallViewOf s resp.report.report.reporterId))) := by
  refine ⟨?_, ?_, ?_⟩
  · intro id detail h
    unfold ReportService.findOne at h
    split at h
    · exact Except.noConfusion h
    · rename_i report hfind
      split at h
      · exact Except.noConfusion h
      · rename_i hmere
        simp only [] at h
        split at h
        · rename_i hcond
          injection h with h'
          subst h'
          refine ⟨fun _ _ _ => rfl, ?_⟩
          intro hpriv
          exfalso
          rw [Bool.and_eq_true, Bool.not_eq_true', Bool.or_eq_false_iff] at hcond
          obtain ⟨hanon, hc1, hc2⟩ := hcond
          rcases hpriv with h1 | h1 | h1
          · exact (ne_of_contains_pair_eq_false _ _ _ hc1).1 h1
          · exact (ne_of_contains_pair_eq_false _ _ _ hc1).2 h1
          · exact ne_of_beq_eq_false hc2 h1
        · rename_i hcond
          injection h with h'
          subst h'
          refine ⟨?_, fun _ => rfl⟩
          intro hanon hnonpriv hnotown
          exfalso
          apply hcond
          rw [Bool.and_eq_true, Bool.not_eq_true', Bool.or_eq_false_iff]
          exact ⟨hanon, contains_pair_eq_false _ _ _ hnonpriv.1 hnonpriv.2,
            beq_eq_false_of_ne hnotown⟩
  · intro filters item hmem
    have hmem' : item ∈ (((((sortByDesc (fun r => r.createdAt)
        (s.reports.filter (matchesReportFilters userId userRole filters))).drop
          (match filters.offset with | none => 0 | some n => n)).take
          (min (match filters.limit with
                | none => 50
                | some n => if n == 0 then 50 else n) 100)).map
        (buildListItem s)).map (fun item =>
          if item.report.isAnonymous &&
              !(["SuperAdmin", "Directeur"].contains userRole)
              && item.report.reporterId != userId then
            { item with reporter := some (anonymousReporterView item.report) }
          else item)) := hmem
    rw [List.mem_map] at hmem'
    obtain ⟨x, hx, hfx⟩ := hmem'
    rw [List.mem_map] at hx
    obtain ⟨r0, _, hbuild⟩ := hx
    subst hbuild
    subst hfx
    by_cases hcond : ((buildListItem s r0).report.isAnonymous &&
        !(["SuperAdmin", "Directeur"].contains userRole)
        && (buildListItem s r0).report.reporterId != userId) = true
    · rw [if_pos hcond]
      refine ⟨fun _ _ _ => rfl, ?_⟩
      intro hpriv
      exfalso
      rw [Bool.and_eq_true, Bool.and_eq_true, Bool.not_eq_true'] at hcond
      obtain ⟨⟨hanon, hc1⟩, hc2⟩ := hcond
      rcases hpriv with h1 | h1 | h1
      · exact (ne_of_contains_pair_eq_false _ _ _ hc1).1 h1
      · exact (ne_of_contains_pair_eq_false _ _ _ hc1).2 h1
      · exact ne_of_bne_eq_true hc2 h1
    · rw [if_neg hcond]
      refine ⟨?_, fun _ => rfl⟩
      intro hanon hnonpriv hnotown
      exfalso
      apply hcond
      rw [Bool.and_eq_true, Bool.and_eq_true, Bool.not_eq_true']
      exact ⟨⟨hanon, contains_pair_eq_false _ _ _ hnonpriv.1 hnonpriv.2⟩,
        bne_eq_true_of_ne hnotown⟩
  · intro id dto files anonymizeAudio now s' resp h
    obtain ⟨rep, pfs, hfind, hnarch, hreports, hresp⟩ := update_ok_shape h
    have hcases := updateResponseView_cases s userId userRole
      (applyUpdateDto dto (rep.attachments ++ pfs.map mkAttachment) rep)
    rw [hresp]
    have hrep : (updateResponseView s userId userRole
        (applyUpdateDto dto (rep.attachments ++ pfs.map mkAttachment) rep)).report =
        applyUpdateDto dto (rep.attachments ++ pfs.map mkAttachment) rep :=
      hcases.1
    refine ⟨?_, ?_⟩
    · intro hanon hnonpriv hnotown
      exact hcases.2.1 (by rw [hrep] at hanon; exact hanon) hnonpriv
        (by rw [hrep] at hnotown; exact hnotown)
    · intro hpriv
      rw [hrep]
      refine hcases.2.2 ?_
      rcases hpriv with h1 | h1 | h1
      · exact Or.inl h1
      · exact Or.inr (Or.inl h1)
      · rw [hrep] at h1
        exact Or.inr (Or.inr h1)

/-- Witness for C5: a non-oversight, non-reporter caller reading a concrete
anonymous report gets the Anonymous Reporter placeholder. -/
theorem C5_anonymous_reporter_visibility_witness :
    ReportService.findOne
      { users := [{ id := "u1", email := "m@sos.tn", password := "h",
                    firstName := "Ma", lastName := "Sos", roleId := "r2",
                    villageName := none, villageId := none, status := .APPROVED,
                    createdAt := 0 }],
        roles := [], villages := [],
        reports := [{ id := "rep1", incidentType := "violence",
                      urgency := "HAUTE", isAnonymous := true, villageId := "v1",
                      villageName := none, childName := "Enfant X",
                      abuserName := none, description := "desc", notes := none,
                      attachments := [], status := "ATTENTE",
                      reporterId := "u1", analystId := none, isArchived := false,
                      closureDecision := none, closedAt := none, createdAt := 1 }],
        documents := [], auditLogs := [], notifications := [] }
      "rep1" "u2" "Psychologue" =
      .ok { report := { id := "rep1", incidentType := "violence",
                        urgency := "HAUTE", isAnonymous := true,
                        villageId := "v1", villageName := none,
                        childName := "Enfant X", abuserName := none,
                        description := "desc", notes := none, attachments := [],
                        status := "ATTENTE", reporterId := "u1",
                        analystId := none, isArchived := false,
                        closureDecision := none, closedAt := none,
                        createdAt := 1 },
            reporter := some (anonymousReporterView
              { id := "rep1", incidentType := "violence", urgency := "HAUTE",
                isAnonymous := true, villageId := "v1", villageName := none,
                childName := "Enfant X", abuserName := none,
                description := "desc", notes := none, attachments := [],
                status := "ATTENTE", reporterId := "u1", analystId := none,
                isArchived := false, closureDecision := none, closedAt := none,
                createdAt := 1 }),
            analyst := none, documents := [], auditLogs := [] } ∧
    (anonymousReporterView
      { id := "rep1", incidentType := "violence", urgency := "HAUTE",
        isAnonymous := true, villageId := "v1", villageName := none,
        childName := "Enfant X", abuserName := none, description := "desc",
        notes := none, attachments := [], status := "ATTENTE",
        reporterId := "u1", analystId := none, isArchived := false,
        closureDecision := none, closedAt := none, createdAt := 1 }).firstName =
      "Anonymous" := by
  refine ⟨?_, rfl⟩
  have h := ((C5_anonymous_reporter_visibility
    { users := [{ id := "u1", email := "m@sos.tn", password := "h",
                  firstName := "Ma", lastName := "Sos", roleId := "r2",
                  villageName := none, villageId := none, status := .APPROVED,
                  createdAt := 0 }],
      roles := [], villages := [],
      reports := [{ id := "rep1", incidentType := "violence",
                    urgency := "HAUTE", isAnonymous := true, villageId := "v1",
                    villageName := none, childName := "Enfant X",
                    abuserName := none, description := "desc", notes := none,
                    attachments := [], status := "ATTENTE",
                    reporterId := "u1", analystId := none, isArchived := false,
                    closureDecision := none, closedAt := none, createdAt := 1 }],
      documents := [], auditLogs := [], notifications := [] }
    "u2" "Psychologue").1 "rep1"
    { report := { id := "rep1", incidentType := "violence", urgency := "HAUTE",
                  isAnonymous := true, villageId := "v1", villageName := none,
                  childName := "Enfant X", abuserName := none,
                  description := "desc", notes := none, attachments := [],
                  status := "ATTENTE", reporterId := "u1", analystId := none,
                  isArchived := false, closureDecision := none, closedAt := none,
                  createdAt := 1 },
      reporter := some (anonymousReporterView
        { id := "rep1", incidentType := "violence", urgency := "HAUTE",
          isAnonymous := true, villageId := "v1", villageName := none,
          childName := "Enfant X", abuserName := none, description := "desc",
          notes := none, attachments := [], status := "ATTENTE",
          reporterId := "u1", analystId := none, isArchived := false,
          closureDecision := none, closedAt := none, createdAt := 1 }),
      analyst := none, documents := [], auditLogs := [] }
    rfl).1 rfl ⟨by decide, by decide⟩ (by decide)
  exact h ▸ rfl

/-- If any audio file in the batch fails anonymization, the whole per-file
loop aborts with the fail-closed message. -/
theorem processAnonymousFiles_error (anonymizeAudio : MulterFile → Except Unit MulterFile)
    (msg : String) (files : List MulterFile) (f : MulterFile) (hf : f ∈ files)
    (haudio : isAudioFile f.mimetype = true) (herr : anonymizeAudio f = .error ()) :
    processAnonymousFiles anonymizeAudio msg files = .error (.badRequest msg) := by
  induction files with
  | nil => cases hf
  | cons g rest ih =>
    unfold processAnonymousFiles
    by_cases hg : isAudioFile g.mimetype
    · cases hag : anonymizeAudio g with
      | error e => simp [hg, hag]
      | ok g' =>
        have hf' : f ∈ rest := by
          rcases List.mem_cons.mp hf with he | hm
          · subst he
            rw [herr] at hag
            exact Except.noConfusion hag
          · exact hm
        simp [hg, hag, ih hf']
    · have hf' : f ∈ rest := by
        rcases List.mem_cons.mp hf with he | hm
        · subst he
          exact absurd haudio (by simpa using hg)
        · exact hm
      simp [hg, ih hf']

/-- A successful per-file loop pairs each input file with its processed
output: audio files with the anonymizer's output, the rest unchanged. -/
theorem processAnonymousFiles_ok_forall₂
    (anonymizeAudio : MulterFile → Except Unit MulterFile) (msg : String)
    (files pfs : List MulterFile)
    (h : processAnonymousFiles anonymizeAudio msg files = .ok pfs) :
    List.Forall₂ (fun f g =>
      if isAudioFile f.mimetype = true then anonymizeAudio f = .ok g else g = f)
      files pfs := by
  induction files generalizing pfs with
  | nil =>
    unfold processAnonymousFiles at h
    injection h with h'
    subst h'
    exact List.Forall₂.nil
  | cons f rest ih =>
    unfold processAnonymousFiles at h
    by_cases haud : isAudioFile f.mimetype
    · rw [if_pos haud] at h
      cases hag : anonymizeAudio f with
      | error e => rw [hag] at h; exact Except.noConfusion h
      | ok g =>
        rw [hag] at h
        cases hrest : processAnonymousFiles anonymizeAudio msg rest with
        | error e => rw [hrest] at h; exact Except.noConfusion h
        | ok out =>
          rw [hrest] at h
          injection h with h'
          subst h'
          exact List.Forall₂.cons (by rw [if_pos haud]; exact hag) (ih out hrest)
    · rw [if_neg haud] at h
      cases hrest : processAnonymousFiles anonymizeAudio msg rest with
      | error e => rw [hrest] at h; exact Except.noConfusion h
      | ok out =>
        rw [hrest] at h
        injection h with h'
        subst h'
        exact List.Forall₂.cons (by rw [if_neg haud]) (ih out hrest)

/-- Shape of a successful create: the processed files became the attachment
list of the single appended report. -/
theorem create_ok_shape {s : Store} {dto : CreateReportDto} {reporterId : String}
    {files : List MulterFile} {anonymizeAudio : MulterFile → Except Unit MulterFile}
    {newId : String} {now : Nat} {s' : Store} {resp : CreateResponse}
    (h : ReportService.create s dto reporterId files anonymizeAudio newId now =
      .ok (s', resp)) :
    ∃ (pfs : List MulterFile),
      (if dto.isAnonymous.getD false && !files.isEmpty then
        processAnonymousFiles anonymizeAudio createAnonFailMsg files
      else .ok files) = .ok pfs ∧
      s'.reports = s.reports ++
        [{ id := newId, incidentType := dto.incidentType, urgency := dto.urgency,
           isAnonymous := dto.isAnonymous.getD false, villageId := dto.villageId,
           villageName := none, childName := dto.childName,
           abuserName := dto.abuserName, description := dto.description,
           notes := none, attachments := pfs.map mkAttachment,
           status := "ATTENTE", reporterId := reporterId, analystId := none,
           isArchived := false, closureDecision := none, closedAt := none,
           createdAt := now }] ∧
      resp.report =
        { id := newId, incidentType := dto.incidentType, urgency := dto.urgency,
          isAnonymous := dto.isAnonymous.getD false, villageId := dto.villageId,
          villageName := none, childName := dto.childName,
          abuserName := dto.abuserName, description := dto.description,
          notes := none, attachments := pfs.map mkAttachment,
          status := "ATTENTE", reporterId := reporterId, analystId := none,
          isArchived := false, closureDecision := none, closedAt := none,
          createdAt := now } := by
  unfold ReportService.create at h
  split at h
  · exact Except.noConfusion h
  · split at h
    · exact Except.noConfusion h
    · rename_i pfs hpfs
      injection h with h'
      rw [Prod.mk.injEq] at h'
      obtain ⟨h1, h2⟩ := h'
      subst h1
      subst h2
      refine ⟨pfs, hpfs, ?_, rfl⟩
      split
      · rfl
      · rfl

/-- C6: for an anonymous create carrying audio attachments, every audio file
is routed through the voice-anonymization collaborator before persistence:
any failing collaborator call fails the whole create with no report
persisted, and on success the persisted attachment of each audio file is the
collaborator's output (non-audio files pass through unchanged). -/
theorem C6_anonymous_audio_fail_closed (s : Store) (dto : CreateReportDto)
    (reporterId : String) (files : List MulterFile)
    (anonymizeAudio : MulterFile → Except Unit MulterFile) (newId : String)
    (now : Nat) (reporter : UserRec)
    (hrep : findUser s reporterId = some reporter)
    (hanon : dto.isAnonymous = some true) :
    ((∃ f ∈ files, isAudioFile f.mimetype = true ∧ anonymizeAudio f = .error ()) →
      ReportService.create s dto reporterId files anonymizeAudio newId now =
        .error (.badRequest createAnonFailMsg))
    ∧ (∀ pfs, processAnonymousFiles anonymizeAudio createAnonFailMsg files = .ok pfs →
        List.Forall₂ (fun f g =>
          if isAudioFile f.mimetype = true then anonymizeAudio f = .ok g else g = f)
          files pfs ∧
        ∃ s' resp,
          ReportService.create s dto reporterId files anonymizeAudio newId now =
            .ok (s', resp) ∧
          ∃ rep', s'.reports = s.reports ++ [rep'] ∧
            rep'.attachments = pfs.map mkAttachment ∧
            rep'.isAnonymous = true) := by
  constructor
  · rintro ⟨f, hf, haud, herr⟩
    have hne : files.isEmpty = false := by
      cases files with
      | nil => cases hf
      | cons a t => rfl
    have hperr := processAnonymousFiles_error anonymizeAudio createAnonFailMsg
      files f hf haud herr
    simp [ReportService.create, hrep, hanon, hne, hperr]
  · intro pfs hpfs
    refine ⟨processAnonymousFiles_ok_forall₂ _ _ _ _ hpfs, ?_⟩
    have hif : (if dto.isAnonymous.getD false && !files.isEmpty then
        processAnonymousFiles anonymizeAudio createAnonFailMsg files
      else .ok files) = .ok pfs := by
      by_cases hne : files.isEmpty
      · have hfe : files = [] := by
          cases files with
          | nil => rfl
          | cons a t => exact absurd hne (by simp)
        subst hfe
        unfold processAnonymousFiles at hpfs
        injection hpfs with h'
        subst h'
        simp [hanon]
      · have hne' : files.isEmpty = false := by
          cases hb : files.isEmpty
          · rfl
          · exact absurd hb hne
        simp [hanon, hne', hpfs]
    cases hc : ReportService.create s dto reporterId files anonymizeAudio newId now with
    | error e =>
      exfalso
      unfold ReportService.create at hc
      split at hc
      · rename_i heq
        rw [hrep] at heq
        exact Option.noConfusion heq
      · split at hc
        · rename_i e' heq
          rw [hif] at heq
          exact Except.noConfusion heq
        · exact Except.noConfusion hc
    | ok p =>
      obtain ⟨sres, rres⟩ := p
      obtain ⟨pfs', hif', hreports, hrespr⟩ := create_ok_shape hc
      rw [hif] at hif'
      injection hif' with hpfs'
      subst hpfs'
      refine ⟨sres, rres, rfl, ?_⟩
      refine ⟨_, hreports, rfl, ?_⟩
      rw [hanon]
      rfl

/-- Witness for C6: a concrete anonymous create whose single audio file fails
anonymization is rejected outright. -/
theorem C6_anonymous_audio_fail_closed_witness :
    (∃ f ∈ [({ filename := "voice.mp3", originalname := "voice.mp3",
               mimetype := "audio/mpeg" } : MulterFile)],
        isAudioFile f.mimetype = true ∧
        (fun (_ : MulterFile) => (.error () : Except Unit MulterFile)) f =
          .error ()) ∧
    ReportService.create
      { users := [{ id := "u1", email := "m@sos.tn", password := "h",
                    firstName := "Ma", lastName := "Sos", roleId := "r2",
                    villageName := none, villageId := none, status := .APPROVED,
                    createdAt := 0 }],
        roles := [], villages := [], reports := [], documents := [],
        auditLogs := [], notifications := [] }
      { incidentType := "violence", urgency := "HAUTE", isAnonymous := some true,
        villageId := "v1", childName := "Enfant X", abuserName := none,
        description := "desc" }
      "u1"
      [{ filename := "voice.mp3", originalname := "voice.mp3",
         mimetype := "audio/mpeg" }]
      (fun _ => .error ()) "rep1" 7 =
      .error (.badRequest createAnonFailMsg) := by
  refine ⟨⟨{ filename := "voice.mp3", originalname := "voice.mp3",
             mimetype := "audio/mpeg" }, by simp, by decide, rfl⟩, ?_⟩
  have h := (C6_anonymous_audio_fail_closed
    { users := [{ id := "u1", email := "m@sos.tn", password := "h",
                  firstName := "Ma", lastName := "Sos", roleId := "r2",
                  villageName := none, villageId := none, status := .APPROVED,
                  createdAt := 0 }],
      roles := [], villages := [], reports := [], documents := [],
      auditLogs := [], notifications := [] }
    { incidentType := "violence", urgency := "HAUTE", isAnonymous := some true,
      villageId := "v1", childName := "Enfant X", abuserName := none,
      description := "desc" }
    "u1"
    [{ filename := "voice.mp3", originalname := "voice.mp3",
       mimetype := "audio/mpeg" }]
    (fun _ => .error ()) "rep1" 7
    { id := "u1", email := "m@sos.tn", password := "h", firstName := "Ma",
      lastName := "Sos", roleId := "r2", villageName := none, villageId := none,
      status := .APPROVED, createdAt := 0 }
    (by decide) rfl).1
    ⟨{ filename := "voice.mp3", originalname := "voice.mp3",
       mimetype := "audio/mpeg" }, by simp, by decide, rfl⟩
  exact h

/-- The matching loop collects exactly the first-occurrence de-duplication of
the tokens passing the code filter (length at least 2 and matching stem). -/
theorem collectCriticalMatches_eq (stem : String → String) (tokens : List String) :
    ∀ seen acc, collectCriticalMatches stem seen acc tokens =
      acc ++ dedupFirstOccurrence seen (tokens.filter (codeTokenFilter stem)) := by
  induction tokens with
  | nil =>
    intro seen acc
    simp [collectCriticalMatches, dedupFirstOccurrence]
  | cons w rest ih =>
    intro seen acc
    unfold collectCriticalMatches
    by_cases hl : w.length < 2
    · rw [if_pos hl]
      have hfilt : codeTokenFilter stem w = false := by
        unfold codeTokenFilter
        simp [hl]
      rw [List.filter_cons, if_neg (by simp [hfilt])]
      exact ih seen acc
    · rw [if_neg hl]
      by_cases hm : stemMatchesCriticalRoot (stem w)
      · have hfilt : codeTokenFilter stem w = true := by
          unfold codeTokenFilter
          simp [hl, hm]
        by_cases hseen : seen.contains w
        · have hcond : (stemMatchesCriticalRoot (stem w) && !(seen.contains w)) =
              false := by
            rw [hm, hseen]
            rfl
          rw [if_neg (by rw [hcond]; exact Bool.false_ne_true)]
          rw [List.filter_cons, if_pos (by simp [hfilt])]
          unfold dedupFirstOccurrence
          rw [if_pos hseen]
          exact ih seen acc
        · have hseen' : seen.contains w = false := by
            cases hb : seen.contains w
            · rfl
            · exact absurd hb hseen
          have hcond : (stemMatchesCriticalRoot (stem w) && !(seen.contains w)) =
              true := by
            rw [hm, hseen']
            rfl
          rw [if_pos hcond]
          rw [List.filter_cons, if_pos (by simp [hfilt])]
          unfold dedupFirstOccurrence
          rw [if_neg hseen]
          rw [ih (w :: seen) (acc ++ [w])]
          simp
      · have hfilt : codeTokenFilter stem w = false := by
          unfold codeTokenFilter
          simp [hm]
        rw [if_neg (by simp [hm])]
        rw [List.filter_cons, if_neg (by simp [hfilt])]
        exact ih seen acc

/-- Closed form of the analyzer for every tokenizer and stemmer. -/
theorem analyzeUrgency_eq (tokenize : String → List String)
    (stem : String → String) (description : String) :
    analyzeUrgency tokenize stem description =
      (if description.data.isEmpty || (jsToLower (jsTrim description)).length == 0 then
        { isCritical := false, matchedWords := [] }
      else
        { isCritical := !(dedupFirstOccurrence []
            ((tokenize (jsToLower (jsTrim description))).filter
              (codeTokenFilter stem))).isEmpty,
          matchedWords := dedupFirstOccurrence []
            ((tokenize (jsToLower (jsTrim description))).filter
              (codeTokenFilter stem)) }) := by
  unfold analyzeUrgency
  by_cases h1 : description.data.isEmpty
  · simp [h1]
  · have h1' : description.data.isEmpty = false := by
      cases hb : description.data.isEmpty
      · rfl
      · exact absurd hb h1
    by_cases h2 : (jsToLower (jsTrim description)).length == 0
    · simp [h1', h2]
    · have h2' : ((jsToLower (jsTrim description)).length == 0) = false := by
        cases hb : (jsToLower (jsTrim description)).length == 0
        · rfl
        · exact absurd hb h2
      simp only [h1', h2', Bool.false_eq_true, if_false, Bool.or_self,
        collectCriticalMatches_eq stem _ [] [], List.nil_append]

/-- C9 (amended): for every tokenizer and stemmer behavior, empty or
whitespace-only input yields no-critical with an empty match list; otherwise
isCritical holds iff matchedWords is non-empty, and matchedWords is the
de-duplicated first-occurrence list of the (lowercased) surface forms of the
tokens of length at least 2 whose stems match a critical root. -/
theorem C9_analyzer_amended (tokenize : String → List String)
    (stem : String → String) (description : String) :
    ((jsToLower (jsTrim description)).length = 0 →
      analyzeUrgency tokenize stem description =
        { isCritical := false, matchedWords := [] })
    ∧ ((analyzeUrgency tokenize stem description).isCritical = true ↔
        (analyzeUrgency tokenize stem description).matchedWords ≠ [])
    ∧ ((analyzeUrgency tokenize stem description).matchedWords =
        if description.data.isEmpty ||
            (jsToLower (jsTrim description)).length == 0 then []
        else dedupFirstOccurrence []
          ((tokenize (jsToLower (jsTrim description))).filter
            (codeTokenFilter stem))) := by
  refine ⟨?_, ?_, ?_⟩
  · intro h
    rw [analyzeUrgency_eq]
    rw [if_pos (by simp [h])]
  · rw [analyzeUrgency_eq]
    split
    · simp
    · simp [List.isEmpty_iff]
  · rw [analyzeUrgency_eq]
    split
    · rfl
    · rfl

/-- Witness for C9 (amended): whitespace-only input yields the empty result
for a concrete tokenizer and stemmer. -/
theorem C9_analyzer_amended_witness :
    ((jsToLower (jsTrim "   ")).length = 0) ∧
    analyzeUrgency spaceTokenize (fun w => w) "   " =
      { isCritical := false, matchedWords := [] } := by
  refine ⟨by decide, ?_⟩
  exact (C9_analyzer_amended spaceTokenize (fun w => w) "   ").1 (by decide)

/-- Counterexample to C9 as stated: on input "a" the single token has length
1, its stem (any stemmer fixes a one-letter word; here shown with the
identity stem, and the real tokenizer also yields the single token "a")
matches the critical root "abus" by the prefix rule, so the claim's formula
yields a one-element matchedWords list with isCritical true, while the code skips
tokens shorter than 2 characters and returns the empty result. -/
theorem C9_counterexample_short_token :
    analyzeUrgency spaceTokenize (fun w => w) "a" =
      { isCritical := false, matchedWords := [] } ∧
    claimMatchedWords spaceTokenize (fun w => w) "a" = ["a"] ∧
    stemMatchesCriticalRoot ((fun w => w) "a") = true := by
  refine ⟨by decide, by decide, by decide⟩

theorem findUser_mapPasswords (s : Store) (f : UserRec → String) (id : String) :
    findUser (mapPasswords s f) id =
      (findUser s id).map (fun u => { u with password := f u }) := by
  unfold findUser mapPasswords
  exact find?_map_eq _ _ _

theorem findUserByEmail_mapPasswords (s : Store) (f : UserRec → String)
    (e : String) :
    findUserByEmail (mapPasswords s f) e =
      (findUserByEmail s e).map (fun u => { u with password := f u }) := by
  unfold findUserByEmail mapPasswords
  exact find?_map_eq _ _ _

/-- Any successful sign-in response is fully determined by the found user and
its role, via fields that do not include the stored password. -/
theorem signIn_ok_shape (s : Store) (dto : SignInDto)
    (cmp : String → String → Bool) (js : JwtPayloadData → String)
    (r : SignInResponse) (h : AuthService.signIn s dto cmp js = .ok r) :
    ∃ u role, findUserByEmail s dto.email = some u ∧
      findRole s u.roleId = some role ∧
      r = { accessToken := js { sub := u.id, email := u.email, role := role.name,
                                permissions := role.permissions },
            user := { id := u.id, email := u.email, firstName := u.firstName,
                      lastName := u.lastName, role := role.name,
                      permissions := role.permissions } } := by
  unfold AuthService.signIn at h
  split at h
  · exact Except.noConfusion h
  · rename_i u hfind
    split at h
    · exact Except.noConfusion h
    · split at h
      · exact Except.noConfusion h
      · split at h
        · exact Except.noConfusion h
        · split at h
          · exact Except.noConfusion h
          · rename_i role hrole
            exact ⟨u, role, hfind, hrole, by injection h with h'; exact h'.symm⟩

/-- Any successful sign-up response is fully determined by the input dto, the
generated id/clock and the found role; the stored hash does not appear. -/
theorem signUp_ok_shape (s : Store) (dto : SignUpDto) (bcryptHash : String → String)
    (newId : String) (now : Nat) (s' : Store) (r : SignUpResponse)
    (h : AuthService.signUp s dto bcryptHash newId now = .ok (s', r)) :
    ∃ role, findUserByEmail s dto.email = none ∧
      findRole s dto.roleId = some role ∧
      r = { message := "Registration submitted. You will be able to sign in once an administrator approves your account.",
            user := { user := { id := newId, email := dto.email,
                                firstName := dto.firstName, lastName := dto.lastName,
                                roleId := dto.roleId, villageName := dto.villageName,
                                villageId := none, status := .PENDING,
                                createdAt := now },
                      role := some role } } := by
  unfold AuthService.signUp at h
  cases hf : findUserByEmail s dto.email with
  | some u => rw [hf] at h; exact Except.noConfusion h
  | none =>
    rw [hf] at h
    cases hrole : findRole s dto.roleId with
    | none => rw [hrole] at h; exact Except.noConfusion h
    | some role =>
      rw [hrole] at h
      refine ⟨role, rfl, rfl, ?_⟩
      injection h with h'
      exact (congrArg Prod.snd h').symm

/-- C10: every user-returning operation strips the stored password hash: the
listing/detail operations and validateUser are invariant under arbitrary
rewriting of every stored hash, and successful sign-in and sign-up responses
are identical across arbitrary rewriting of the stored hashes (together with
any bcrypt behavior), so no response depends on a stored password hash. -/
theorem C10_responses_never_contain_password (s : Store) (f : UserRec → String) :
    (∀ q, UserService.findAll (mapPasswords s f) q = UserService.findAll s q)
    ∧ (∀ id, UserService.findOne (mapPasswords s f) id = UserService.findOne s id)
    ∧ (∀ uid, AuthService.validateUser (mapPasswords s f) uid =
        AuthService.validateUser s uid)
    ∧ (∀ dto cmpA cmpB js rA rB,
        AuthService.signIn s dto cmpA js = .ok rA →
        AuthService.signIn (mapPasswords s f) dto cmpB js = .ok rB →
        rA = rB)
    ∧ (∀ dto hashA hashB newId now sA sB rA rB,
        AuthService.signUp s dto hashA newId now = .ok (sA, rA) →
        AuthService.signUp (mapPasswords s f) dto hashB newId now = .ok (sB, rB) →
        rA = rB) := by
  have hfr : ∀ rid, findRole (mapPasswords s f) rid = findRole s rid := fun _ => rfl
  refine ⟨?_, ?_, ?_, ?_, ?_⟩
  · intro q
    simp only [UserService.findAll, mapPasswords]
    rw [filter_map_eq, sortByDesc_map (fun u : UserRec => u.createdAt)
      (fun u => { u with password := f u }) (fun x => rfl), List.map_map]
    rfl
  · intro id
    unfold UserService.findOne
    rw [findUser_mapPasswords]
    cases h : findUser s id <;> rfl
  · intro uid
    unfold AuthService.validateUser
    rw [findUser_mapPasswords]
    cases h : findUser s uid <;> rfl
  · intro dto cmpA cmpB js rA rB hA hB
    obtain ⟨u, role, hfA, hrA, heA⟩ := signIn_ok_shape _ _ _ _ _ hA
    obtain ⟨u', role', hfB, hrB, heB⟩ := signIn_ok_shape _ _ _ _ _ hB
    rw [findUserByEmail_mapPasswords, hfA, Option.map_some'] at hfB
    have hu' : u' = { u with password := f u } := (Option.some.inj hfB).symm
    subst hu'
    rw [hfr] at hrB
    have hrid : ({ u with password := f u } : UserRec).roleId = u.roleId := rfl
    rw [hrid, hrA] at hrB
    have hro : role' = role := (Option.some.inj hrB).symm
    subst hro
    rw [heA, heB]
  · intro dto hashA hashB newId now sA sB rA rB hA hB
    obtain ⟨role, hfA, hrA, heA⟩ := signUp_ok_shape _ _ _ _ _ _ _ hA
    obtain ⟨role', hfB, hrB, heB⟩ := signUp_ok_shape _ _ _ _ _ _ _ hB
    rw [hfr, hrA] at hrB
    have hro : role' = role := (Option.some.inj hrB).symm
    subst hro
    rw [heA, heB]

/-- Witness for C10: concrete successful sign-ins over a store and its
hash-rewritten copy produce identical responses. -/
theorem C10_responses_never_contain_password_witness :
    AuthService.signIn
      { users := [{ id := "u1", email := "a@sos.tn", password := "hashX",
                    firstName := "Ad", lastName := "Min", roleId := "r1",
                    villageName := none, villageId := none, status := .APPROVED,
                    createdAt := 3 }],
        roles := [{ id := "r1", name := "SuperAdmin", description := none,
                    permissions := ["REPORT_CREATE"] }],
        villages := [], reports := [], documents := [], auditLogs := [],
        notifications := [] }
      { email := "a@sos.tn", password := "pw" } (fun _ _ => true) (fun _ => "tok") =
      .ok { accessToken := "tok",
            user := { id := "u1", email := "a@sos.tn", firstName := "Ad",
                      lastName := "Min", role := "SuperAdmin",
                      permissions := ["REPORT_CREATE"] } } ∧
    AuthService.signIn
      (mapPasswords
        { users := [{ id := "u1", email := "a@sos.tn", password := "hashX",
                      firstName := "Ad", lastName := "Min", roleId := "r1",
                      villageName := none, villageId := none, status := .APPROVED,
                      createdAt := 3 }],
          roles := [{ id := "r1", name := "SuperAdmin", description := none,
                      permissions := ["REPORT_CREATE"] }],
          villages := [], reports := [], documents := [], auditLogs := [],
          notifications := [] }
        (fun _ => "otherHash"))
      { email := "a@sos.tn", password := "pw" } (fun _ _ => true) (fun _ => "tok") =
      .ok { accessToken := "tok",
            user := { id := "u1", email := "a@sos.tn", firstName := "Ad",
                      lastName := "Min", role := "SuperAdmin",
                      permissions := ["REPORT_CREATE"] } } := by
  constructor
  · rfl
  · have h := (C10_responses_never_contain_password
      { users := [{ id := "u1", email := "a@sos.tn", password := "hashX",
                    firstName := "Ad", lastName := "Min", roleId := "r1",
                    villageName := none, villageId := none, status := .APPROVED,
                    createdAt := 3 }],
        roles := [{ id := "r1", name := "SuperAdmin", description := none,
                    permissions := ["REPORT_CREATE"] }],
        villages := [], reports := [], documents := [], auditLogs := [],
        notifications := [] }
      (fun _ => "otherHash")).2.2.2.1
      { email := "a@sos.tn", password := "pw" } (fun _ _ => true) (fun _ _ => true)
      (fun _ => "tok")
      { accessToken := "tok",
        user := { id := "u1", email := "a@sos.tn", firstName := "Ad",
                  lastName := "Min", role := "SuperAdmin",
                  permissions := ["REPORT_CREATE"] } }
      { accessToken := "tok",
        user := { id := "u1", email := "a@sos.tn", firstName := "Ad",
                  lastName := "Min", role := "SuperAdmin",
                  permissions := ["REPORT_CREATE"] } }
      (by rfl) (by rfl)
    exact h ▸ rfl

end SOSBackend
